import Mathlib

/-!
# yb-orm: SQL driver / dialect layer (`src/lib/orm/SqlDriver.cpp`)

A shallow embedding of the dialect and driver registries and of the
connection / cursor / result-set protocol, followed by the properties proved
about them.

Conventions of the embedding.

* A C++ function that may throw returns `Except Exn α`; a function that also
  mutates an object returns the pair `(result, new state)`, so the state left
  behind by a throwing call is visible.
* `_T(..)`, `NARROW` and `WIDEN` only change the character width of a literal
  and are the identity on `String`.
* The registries are process-wide singletons in the source; here the registry
  value is passed in and returned.
-/

namespace Yb

/-! ## Errors (`SqlDriver.cpp` lines 29-55) -/

/-- The exception classes of the layer. `UsageError` is what a failed
`YB_ASSERT` raises, `std_exception` any other `std::exception`. -/
inductive ErrorKind where
  | DBError
  | GenericDBError
  | NoDataFound
  | BadSQLOperation
  | BadOperationInMode
  | SqlDialectError
  | SqlDriverError
  | UsageError
  | std_exception
  deriving DecidableEq, Repr

/-- An exception object: its class and the text `what()` returns. -/
structure Exn where
  kind : ErrorKind
  what : String
  deriving DecidableEq, Repr

/-- `DBError::DBError(msg) : BaseError(msg)`. -/
def DBError (msg : String) : Exn := ⟨ErrorKind.DBError, msg⟩

/-- `GenericDBError::GenericDBError(err)`. -/
def GenericDBError (err : String) : Exn :=
  ⟨ErrorKind.GenericDBError, "Database error, details: " ++ err⟩

/-- `NoDataFound::NoDataFound(msg)`. -/
def NoDataFound (msg : String) : Exn :=
  ⟨ErrorKind.NoDataFound, "Data wasn't found, details: " ++ msg⟩

/-- `BadSQLOperation::BadSQLOperation(msg)`. -/
def BadSQLOperation (msg : String) : Exn := ⟨ErrorKind.BadSQLOperation, msg⟩

/-- `BadOperationInMode::BadOperationInMode(msg)`. -/
def BadOperationInMode (msg : String) : Exn := ⟨ErrorKind.BadOperationInMode, msg⟩

/-- `SqlDialectError::SqlDialectError(msg)`. -/
def SqlDialectError (msg : String) : Exn := ⟨ErrorKind.SqlDialectError, msg⟩

/-- `SqlDriverError::SqlDriverError(msg)`. -/
def SqlDriverError (msg : String) : Exn := ⟨ErrorKind.SqlDriverError, msg⟩

/-! ## Values and rows -/

/-- Modelled from the spec: the type tag of `Value` (the class is declared in a
header that is not part of the sources). Spec section 3: a tagged union over
null, integer, floating-point, string, datetime and further tags. Only
`DATETIME` is named by `SqlDriver.cpp`. -/
inductive ValueType where
  | NULL_TYPE
  | INTEGER
  | FLOAT
  | STRING
  | DATETIME
  | OTHER (tag : Nat)
  deriving DecidableEq, Repr

/-- Modelled from the spec: a `Value` as far as this layer observes it, namely
through `get_type()` and through `sql_str()`, its own SQL literal rendering
(spec section 3: every Value knows its rendering independent of dialect). Both
are taken as given, so a statement over all `Value`s covers every rendering. -/
structure Value where
  get_type : ValueType
  sql_str : String
  deriving DecidableEq, Repr

/-- `Values`: the ordered parameters of a prepared statement. -/
abbrev Values := List Value

/-- `Row`: ordered (column name, value) pairs. -/
abbrev Row := List (String × Value)

/-- `Rows`. -/
abbrev Rows := List Row

/-! ## Dialects (`SqlDriver.cpp` lines 57-123) -/

/-- The `SqlDialect` base class: the three constructor arguments and the three
virtual member functions. -/
structure SqlDialect where
  name : String
  dual_name : String
  has_sequences : Bool
  select_curr_value : String → Except Exn String
  select_next_value : String → Except Exn String
  sql_value : Value → String

/-- `SqlDialect::get_name()`. -/
def SqlDialect.get_name (d : SqlDialect) : String := d.name

/-- `class OracleDialect`. -/
def OracleDialect : SqlDialect where
  name := "ORACLE"
  dual_name := "DUAL"
  has_sequences := true
  select_curr_value := fun seq_name => Except.ok (seq_name ++ ".CURRVAL")
  select_next_value := fun seq_name => Except.ok (seq_name ++ ".NEXTVAL")
  sql_value := fun x =>
    if x.get_type = ValueType.DATETIME then "timestamp" ++ x.sql_str
    else x.sql_str

/-- `class PostgresDialect`. -/
def PostgresDialect : SqlDialect where
  name := "POSTGRES"
  dual_name := ""
  has_sequences := true
  select_curr_value := fun seq_name => Except.ok ("CURRVAL('" ++ seq_name ++ "')")
  select_next_value := fun seq_name => Except.ok ("NEXTVAL('" ++ seq_name ++ "')")
  sql_value := fun x => x.sql_str

/-- `class InterbaseDialect`. -/
def InterbaseDialect : SqlDialect where
  name := "INTERBASE"
  dual_name := "RDB$DATABASE"
  has_sequences := true
  select_curr_value := fun seq_name => Except.ok ("GEN_ID(" ++ seq_name ++ ", 0)")
  select_next_value := fun seq_name => Except.ok ("GEN_ID(" ++ seq_name ++ ", 1)")
  sql_value := fun x => x.sql_str

/-- `class MysqlDialect`. -/
def MysqlDialect : SqlDialect where
  name := "MYSQL"
  dual_name := "DUAL"
  has_sequences := false
  select_curr_value := fun _ => Except.error (SqlDialectError "No sequences, please")
  select_next_value := fun _ => Except.error (SqlDialectError "No sequences, please")
  sql_value := fun x => x.sql_str

/-! ## The item registry -/

/-- Modelled from the spec: `ItemRegistry<Item>` (declared in
`util/Singleton.h`, not part of the sources). Spec section 2 and 4.1: a
name to instance map; `register` adds an item under its name and fails,
without overwriting, when the name already exists; `list` returns all
registered names. The entries are kept in registration order, each name at
most once. -/
abbrev ItemRegistry (Item : Type) := List (String × Item)

/-- Modelled from the spec: `ItemRegistry::empty()`. -/
def ItemRegistry.empty {Item : Type} (r : ItemRegistry Item) : Bool :=
  match r with
  | [] => true
  | _ :: _ => false

/-- Modelled from the spec: `ItemRegistry::find_item(name)`, the instance
registered under `name`, `none` standing for the null pointer. -/
def ItemRegistry.find_item {Item : Type} : ItemRegistry Item → String → Option Item
  | [], _ => none
  | (k, v) :: rest, name => if k = name then some v else ItemRegistry.find_item rest name

/-- Modelled from the spec: `ItemRegistry::register_item(name, item)`: `false`
and no change when `name` is taken, otherwise the item is added. -/
def ItemRegistry.register_item {Item : Type} (r : ItemRegistry Item) (name : String)
    (item : Item) : Bool × ItemRegistry Item :=
  match ItemRegistry.find_item r name with
  | some _ => (false, r)
  | none => (true, r ++ [(name, item)])

/-- Modelled from the spec: `ItemRegistry::list_items()`, all registered names. -/
def ItemRegistry.list_items {Item : Type} (r : ItemRegistry Item) : List String :=
  r.map Prod.fst

/-! ## The dialect registry (`SqlDriver.cpp` lines 125-173) -/

/-- `register_std_dialects()`: the four built-ins, each under its own name. -/
def register_std_dialects (r : ItemRegistry SqlDialect) : ItemRegistry SqlDialect :=
  let r1 := (ItemRegistry.register_item r OracleDialect.get_name OracleDialect).2
  let r2 := (ItemRegistry.register_item r1 PostgresDialect.get_name PostgresDialect).2
  let r3 := (ItemRegistry.register_item r2 MysqlDialect.get_name MysqlDialect).2
  (ItemRegistry.register_item r3 InterbaseDialect.get_name InterbaseDialect).2

/-- `sql_dialect(name)`: seeds an empty registry, then looks `name` up. -/
def sql_dialect (r : ItemRegistry SqlDialect) (name : String) :
    Except Exn SqlDialect × ItemRegistry SqlDialect :=
  let r1 := if ItemRegistry.empty r then register_std_dialects r else r
  match ItemRegistry.find_item r1 name with
  | none => (Except.error (SqlDialectError ("Unknown dialect: " ++ name)), r1)
  | some dialect => (Except.ok dialect, r1)

/-- `register_sql_dialect(dialect)`. -/
def register_sql_dialect (r : ItemRegistry SqlDialect) (dialect : SqlDialect) :
    Bool × ItemRegistry SqlDialect :=
  let r1 := if ItemRegistry.empty r then register_std_dialects r else r
  ItemRegistry.register_item r1 dialect.get_name dialect

/-- `list_sql_dialects()`. -/
def list_sql_dialects (r : ItemRegistry SqlDialect) :
    List String × ItemRegistry SqlDialect :=
  let r1 := if ItemRegistry.empty r then register_std_dialects r else r
  (ItemRegistry.list_items r1, r1)

/-- The states of the dialect registry a process can reach: it starts empty
and is only touched by the three functions above. -/
inductive DialectRegistryReachable : ItemRegistry SqlDialect → Prop where
  | start : DialectRegistryReachable []
  | get (r : ItemRegistry SqlDialect) (name : String) :
      DialectRegistryReachable r → DialectRegistryReachable (sql_dialect r name).2
  | register (r : ItemRegistry SqlDialect) (d : SqlDialect) :
      DialectRegistryReachable r → DialectRegistryReachable (register_sql_dialect r d).2
  | list (r : ItemRegistry SqlDialect) :
      DialectRegistryReachable r → DialectRegistryReachable (list_sql_dialects r).2

/-! ## The driver registry (`SqlDriver.cpp` lines 5-13, 179-216) -/

/-- The `SqlDriver` base class as this file uses it: its name and the backend
connection handle `create_backend()` produces (`σ` is the type of backend
states). -/
structure SqlDriver (σ : Type) where
  name : String
  create_backend : σ

/-- `SqlDriver::get_name()`. -/
def SqlDriver.get_name {σ : Type} (d : SqlDriver σ) : String := d.name

/-- `DEFAULT_DRIVER`: `"QTSQL"` when built with `YB_USE_QT`, else `"ODBC"`. -/
def DEFAULT_DRIVER (YB_USE_QT : Bool) : String :=
  if YB_USE_QT then "QTSQL" else "ODBC"

/-- `str_empty(name)`. -/
def str_empty (s : String) : Bool := decide (s = "")

/-- `register_std_drivers()`. `DefaultSqlDriver` is the driver object of the
build (`QtSqlDriver` or `OdbcDriver`, neither part of the sources). -/
def register_std_drivers {σ : Type} (DefaultSqlDriver : SqlDriver σ)
    (r : ItemRegistry (SqlDriver σ)) : ItemRegistry (SqlDriver σ) :=
  (ItemRegistry.register_item r DefaultSqlDriver.get_name DefaultSqlDriver).2

/-- `sql_driver(name)`. -/
def sql_driver {σ : Type} (YB_USE_QT : Bool) (DefaultSqlDriver : SqlDriver σ)
    (r : ItemRegistry (SqlDriver σ)) (name : String) :
    Except Exn (SqlDriver σ) × ItemRegistry (SqlDriver σ) :=
  let r1 := if ItemRegistry.empty r then register_std_drivers DefaultSqlDriver r else r
  let driver :=
    if str_empty name || decide (name = "DEFAULT") then
      ItemRegistry.find_item r1 (DEFAULT_DRIVER YB_USE_QT)
    else
      ItemRegistry.find_item r1 name
  match driver with
  | none => (Except.error (SqlDriverError ("Unknown driver: " ++ name)), r1)
  | some d => (Except.ok d, r1)

/-- `register_sql_driver(driver)`. -/
def register_sql_driver {σ : Type} (DefaultSqlDriver : SqlDriver σ)
    (r : ItemRegistry (SqlDriver σ)) (driver : SqlDriver σ) :
    Bool × ItemRegistry (SqlDriver σ) :=
  let r1 := if ItemRegistry.empty r then register_std_drivers DefaultSqlDriver r else r
  ItemRegistry.register_item r1 driver.get_name driver

/-- `list_sql_drivers()`. -/
def list_sql_drivers {σ : Type} (DefaultSqlDriver : SqlDriver σ)
    (r : ItemRegistry (SqlDriver σ)) : List String × ItemRegistry (SqlDriver σ) :=
  let r1 := if ItemRegistry.empty r then register_std_drivers DefaultSqlDriver r else r
  (ItemRegistry.list_items r1, r1)

/-! ## The backend contract (spec section 6) -/

/-- `SqlSource`: identifier, driver name, dialect name, database target, user
and password, in the order of the six constructor arguments. -/
structure SqlSource where
  id : String
  driver_name : String
  dialect_name : String
  db : String
  user : String
  passwd : String
  deriving DecidableEq, Repr

/-- `SqlSource::get_driver_name()`. -/
def SqlSource.get_driver_name (s : SqlSource) : String := s.driver_name

/-- `SqlSource::get_dialect_name()`. -/
def SqlSource.get_dialect_name (s : SqlSource) : String := s.dialect_name

/-- The virtual member functions of `SqlConnectionBackend` and
`SqlCursorBackend`, which the wire-protocol drivers implement. `σ` is the whole
state behind one backend connection, its statement handles included; a cursor
backend object is named by the handle `new_cursor` returned. Every function
returns the state it leaves, also when it throws. `release` is the destructor
of a cursor backend object (`~SqlCursorBackend`), which runs when the owning
`auto_ptr` is reset; `SqlConnection::clear` guards it with a handler, so it is
taken to be able to throw like the other functions. -/
structure SqlBackend (σ : Type) where
  open_ : SqlDialect → SqlSource → σ → Except Exn Unit × σ
  new_cursor : σ → Except Exn Nat × σ
  commit : σ → Except Exn Unit × σ
  rollback : σ → Except Exn Unit × σ
  close : σ → Except Exn Unit × σ
  exec_direct : Nat → String → σ → Except Exn Unit × σ
  prepare : Nat → String → σ → Except Exn Unit × σ
  exec : Nat → Values → σ → Except Exn Unit × σ
  fetch_row : Nat → σ → Except Exn (Option Row) × σ
  release : Nat → σ → Except Exn Unit × σ

/-- The backend member function a call went to, with its arguments. -/
inductive BackendCall where
  | conn_open
  | conn_new_cursor
  | conn_commit
  | conn_rollback
  | conn_close
  | cursor_exec_direct (cursor : Nat) (sql : String)
  | cursor_prepare (cursor : Nat) (sql : String)
  | cursor_exec (cursor : Nat) (params : Values)
  | cursor_fetch_row (cursor : Nat)
  | cursor_release (cursor : Nat)
  deriving DecidableEq, Repr

/-- One entry of the record of backend calls: the call and the exception it
raised, if any. -/
structure BackendEvent where
  call : BackendCall
  raised : Option Exn
  deriving DecidableEq, Repr

/-- The exception carried by a result, if any. -/
def raised {α : Type} : Except Exn α → Option Exn
  | Except.error e => some e
  | Except.ok _ => none

/-! ## Connection, cursor and result set -/

/-- `SqlCursor`: the backend statement handle it owns and the `echo_` and
`log_` it copied from the connection when it was constructed. The
`connection_` back-reference is the connection state passed to each member
function. A logger is named by a number, `none` is the null pointer. -/
structure SqlCursor where
  backend_ : Nat
  echo_ : Bool
  log_ : Option Nat
  deriving DecidableEq, Repr

/-- `SqlResultSet`: the cursor it reads from (`cursor_`) and the transient
cursor it owns, if any (`owned_cursor_`). -/
structure SqlResultSet where
  cursor_ : SqlCursor
  owned_cursor_ : Option SqlCursor
  deriving DecidableEq, Repr

/-- `SqlConnection`: the data members, `backend_` being the state of the
backend connection handle it owns. The last two fields are not data members:
`calls` records every call made to the backend through this connection, in
order, and `debug_log` every line handed to a logger by `DBG`. -/
structure SqlConnection (σ : Type) where
  source_ : SqlSource
  driver_ : SqlDriver σ
  dialect_ : SqlDialect
  activity_ : Bool
  echo_ : Bool
  bad_ : Bool
  free_since_ : Nat
  log_ : Option Nat
  backend_ : σ
  cursor_ : Option SqlCursor
  calls : List BackendEvent
  debug_log : List (Nat × String)

/-- The `DBG(x)` macro: `if (log_) log_->debug(x)`; `log_` is the member of
the object whose member function expands the macro. -/
def DBG {σ : Type} (log_ : Option Nat) (x : String) (c : SqlConnection σ) :
    SqlConnection σ :=
  match log_ with
  | some logger => { c with debug_log := c.debug_log ++ [(logger, x)] }
  | none => c

/-- A call of a backend member function: it runs on the backend state and is
recorded in `calls`. -/
def SqlConnection.invoke {σ α : Type} (call : BackendCall)
    (op : σ → Except Exn α × σ) (c : SqlConnection σ) :
    Except Exn α × SqlConnection σ :=
  let out := op c.backend_
  (out.1, { c with backend_ := out.2, calls := c.calls ++ [⟨call, raised out.1⟩] })

/-- The text up to the first line feed: `s.find` of the line feed and
`s.substr(0, pos)` in `mark_bad`. -/
def first_line (s : String) : String :=
  String.mk (s.data.takeWhile (fun ch => ch != Char.ofNat 10))

/-- `SqlConnection::mark_bad(e)`. -/
def SqlConnection.mark_bad {σ : Type} (e : Exn) (c : SqlConnection σ) :
    SqlConnection σ :=
  if !c.bad_ then
    let s := first_line e.what
    let c1 := DBG c.log_ ("mark connection bad, because of " ++ s) c
    { c1 with bad_ := true }
  else c

/-- `SqlCursor::SqlCursor(connection)`: asks the backend for a statement
handle, then copies `echo_` and `log_`. -/
def SqlCursor.new {σ : Type} (B : SqlBackend σ) (c : SqlConnection σ) :
    Except Exn SqlCursor × SqlConnection σ :=
  match SqlConnection.invoke BackendCall.conn_new_cursor B.new_cursor c with
  | (Except.error e, c1) => (Except.error e, c1)
  | (Except.ok h, c1) => (Except.ok ⟨h, c1.echo_, c1.log_⟩, c1)

/-- The destructor of `SqlCursor`: destroys the cursor backend object. -/
def SqlCursor.destroy {σ : Type} (B : SqlBackend σ) (cursor : SqlCursor)
    (c : SqlConnection σ) : Except Exn Unit × SqlConnection σ :=
  SqlConnection.invoke (BackendCall.cursor_release cursor.backend_)
    (B.release cursor.backend_) c

/-- `SqlCursor::exec_direct(sql)`. -/
def SqlCursor.exec_direct {σ : Type} (B : SqlBackend σ) (cursor : SqlCursor)
    (sql : String) (c : SqlConnection σ) :
    Except Exn SqlResultSet × SqlConnection σ :=
  let c1 := if cursor.echo_ then DBG cursor.log_ ("exec_direct: " ++ sql) c else c
  let c2 := { c1 with activity_ := true }
  match SqlConnection.invoke (BackendCall.cursor_exec_direct cursor.backend_ sql)
      (B.exec_direct cursor.backend_ sql) c2 with
  | (Except.ok _, c3) => (Except.ok ⟨cursor, none⟩, c3)
  | (Except.error e, c3) => (Except.error e, SqlConnection.mark_bad e c3)

/-- `SqlCursor::prepare(sql)`. -/
def SqlCursor.prepare {σ : Type} (B : SqlBackend σ) (cursor : SqlCursor)
    (sql : String) (c : SqlConnection σ) : Except Exn Unit × SqlConnection σ :=
  let c1 := if cursor.echo_ then DBG cursor.log_ ("prepare: " ++ sql) c else c
  let c2 := { c1 with activity_ := true }
  match SqlConnection.invoke (BackendCall.cursor_prepare cursor.backend_ sql)
      (B.prepare cursor.backend_ sql) c2 with
  | (Except.ok u, c3) => (Except.ok u, c3)
  | (Except.error e, c3) => (Except.error e, SqlConnection.mark_bad e c3)

/-- The text the echo of `SqlCursor::exec` appends for the parameters from
position `i` on. -/
def exec_echo_params : Nat → Values → String
  | _, [] => ""
  | i, p :: ps =>
    " p" ++ toString (i + 1) ++ "=\"" ++ p.sql_str ++ "\"" ++ exec_echo_params (i + 1) ps

/-- `SqlCursor::exec(params)`. -/
def SqlCursor.exec {σ : Type} (B : SqlBackend σ) (cursor : SqlCursor)
    (params : Values) (c : SqlConnection σ) :
    Except Exn SqlResultSet × SqlConnection σ :=
  let c1 :=
    if cursor.echo_ then DBG cursor.log_ ("exec prepared:" ++ exec_echo_params 0 params) c
    else c
  let c2 := { c1 with activity_ := true }
  match SqlConnection.invoke (BackendCall.cursor_exec cursor.backend_ params)
      (B.exec cursor.backend_ params) c2 with
  | (Except.ok _, c3) => (Except.ok ⟨cursor, none⟩, c3)
  | (Except.error e, c3) => (Except.error e, SqlConnection.mark_bad e c3)

/-- The text the echo of `SqlCursor::fetch_row` writes for a row. -/
def fetch_echo_row : Row → String
  | [] => ""
  | (name, value) :: rest => name ++ "=" ++ value.sql_str ++ " " ++ fetch_echo_row rest

/-- `SqlCursor::fetch_row()`: `none` is the null `RowPtr`, no more rows. -/
def SqlCursor.fetch_row {σ : Type} (B : SqlBackend σ) (cursor : SqlCursor)
    (c : SqlConnection σ) : Except Exn (Option Row) × SqlConnection σ :=
  match SqlConnection.invoke (BackendCall.cursor_fetch_row cursor.backend_)
      (B.fetch_row cursor.backend_) c with
  | (Except.ok row, c1) =>
    let c2 :=
      if cursor.echo_ then
        match row with
        | some r => DBG cursor.log_ ("fetch: " ++ fetch_echo_row r) c1
        | none => DBG cursor.log_ "fetch: no more rows" c1
      else c1
    (Except.ok row, c2)
  | (Except.error e, c1) => (Except.error e, SqlConnection.mark_bad e c1)

/-- `SqlResultSet::fetch(row)`: `some row` for `true` with the row swapped in,
`none` for `false`. -/
def SqlResultSet.fetch {σ : Type} (B : SqlBackend σ) (rs : SqlResultSet)
    (c : SqlConnection σ) : Except Exn (Option Row) × SqlConnection σ :=
  match SqlCursor.fetch_row B rs.cursor_ c with
  | (Except.error e, c1) => (Except.error e, c1)
  | (Except.ok none, c1) => (Except.ok none, c1)
  | (Except.ok (some p), c1) => (Except.ok (some p), c1)

/-- Modelled from the spec: `copy_no_more_than_n(result.begin(), result.end(),
n, back_inserter(rows))` over the iterators of a result set (the function
template and the iterator class are in headers that are not part of the
sources). Spec section 4.4 and 4.5: the result set is a lazy, forward-only
sequence produced by repeatedly calling the cursor's `fetch_row`; up to `n`
rows are drained into the sequence, stopping early on exhaustion, and nothing
is fetched when no row is asked for. -/
def copy_no_more_than_n {σ : Type} (B : SqlBackend σ) (result : SqlResultSet) :
    Nat → Rows → SqlConnection σ → Except Exn Rows × SqlConnection σ
  | 0, rows, c => (Except.ok rows, c)
  | n + 1, rows, c =>
    match SqlResultSet.fetch B result c with
    | (Except.error e, c1) => (Except.error e, c1)
    | (Except.ok none, c1) => (Except.ok rows, c1)
    | (Except.ok (some row), c1) => copy_no_more_than_n B result n (rows ++ [row]) c1

/-- `SqlCursor::fetch_rows(max_rows)`; a `max_rows` of zero or less asks for
no row. -/
def SqlCursor.fetch_rows {σ : Type} (B : SqlBackend σ) (cursor : SqlCursor)
    (max_rows : Int) (c : SqlConnection σ) : Except Exn Rows × SqlConnection σ :=
  match copy_no_more_than_n B ⟨cursor, none⟩ max_rows.toNat [] c with
  | (Except.ok rows, c1) => (Except.ok rows, c1)
  | (Except.error e, c1) => (Except.error e, SqlConnection.mark_bad e c1)

/-- `SqlResultSet::own(cursor)`: releases the cursor owned so far, if any,
and takes over `cursor`. -/
def SqlResultSet.own {σ : Type} (B : SqlBackend σ) (rs : SqlResultSet)
    (cursor : SqlCursor) (c : SqlConnection σ) :
    Except Exn SqlResultSet × SqlConnection σ :=
  match rs.owned_cursor_ with
  | none => (Except.ok { rs with owned_cursor_ := some cursor }, c)
  | some old =>
    match SqlCursor.destroy B old c with
    | (Except.ok _, c1) => (Except.ok { rs with owned_cursor_ := some cursor }, c1)
    | (Except.error e, c1) => (Except.error e, c1)

/-- The two registries of the process. -/
structure Registries (σ : Type) where
  drivers : ItemRegistry (SqlDriver σ)
  dialects : ItemRegistry SqlDialect

/-- `SqlConnection::SqlConnection(source)`: resolves the driver, then the
dialect, initialises the flags, creates the backend and opens it. When any
step throws no connection object comes to exist. -/
def SqlConnection.new_from_source {σ : Type} (B : SqlBackend σ) (YB_USE_QT : Bool)
    (DefaultSqlDriver : SqlDriver σ) (regs : Registries σ) (source : SqlSource) :
    Except Exn (SqlConnection σ) × Registries σ :=
  match sql_driver YB_USE_QT DefaultSqlDriver regs.drivers source.get_driver_name with
  | (Except.error e, drivers1) => (Except.error e, { regs with drivers := drivers1 })
  | (Except.ok driver, drivers1) =>
    match sql_dialect regs.dialects source.get_dialect_name with
    | (Except.error e, dialects1) => (Except.error e, ⟨drivers1, dialects1⟩)
    | (Except.ok dialect, dialects1) =>
      let c : SqlConnection σ :=
        { source_ := source
          driver_ := driver
          dialect_ := dialect
          activity_ := false
          echo_ := false
          bad_ := false
          free_since_ := 0
          log_ := none
          backend_ := driver.create_backend
          cursor_ := none
          calls := []
          debug_log := [] }
      match SqlConnection.invoke BackendCall.conn_open (B.open_ dialect source) c with
      | (Except.error e, _) => (Except.error e, ⟨drivers1, dialects1⟩)
      | (Except.ok _, c1) => (Except.ok c1, ⟨drivers1, dialects1⟩)

/-- `SqlConnection::SqlConnection(driver_name, dialect_name, db, user, passwd)`. -/
def SqlConnection.new {σ : Type} (B : SqlBackend σ) (YB_USE_QT : Bool)
    (DefaultSqlDriver : SqlDriver σ) (regs : Registries σ)
    (driver_name dialect_name db user passwd : String) :
    Except Exn (SqlConnection σ) × Registries σ :=
  SqlConnection.new_from_source B YB_USE_QT DefaultSqlDriver regs
    ⟨db, driver_name, dialect_name, db, user, passwd⟩

/-- `SqlConnection::commit()`. -/
def SqlConnection.commit {σ : Type} (B : SqlBackend σ) (c : SqlConnection σ) :
    Except Exn Unit × SqlConnection σ :=
  let c1 := { c with activity_ := false }
  let c2 := if c1.echo_ then DBG c1.log_ "commit" c1 else c1
  match SqlConnection.invoke BackendCall.conn_commit B.commit c2 with
  | (Except.ok u, c3) => (Except.ok u, c3)
  | (Except.error e, c3) => (Except.error e, SqlConnection.mark_bad e c3)

/-- `SqlConnection::rollback()`. -/
def SqlConnection.rollback {σ : Type} (B : SqlBackend σ) (c : SqlConnection σ) :
    Except Exn Unit × SqlConnection σ :=
  let c1 := { c with activity_ := false }
  let c2 := if c1.echo_ then DBG c1.log_ "rollback" c1 else c1
  match SqlConnection.invoke BackendCall.conn_rollback B.rollback c2 with
  | (Except.ok u, c3) => (Except.ok u, c3)
  | (Except.error e, c3) => (Except.error e, SqlConnection.mark_bad e c3)

/-- `cursor_.reset(NULL)`: destroys the cursor the connection holds, if any,
and then stores the null pointer; when the destruction throws the store is
not reached. -/
def SqlConnection.reset_cursor {σ : Type} (B : SqlBackend σ) (c : SqlConnection σ) :
    Except Exn Unit × SqlConnection σ :=
  match c.cursor_ with
  | none => (Except.ok (), c)
  | some old =>
    match SqlCursor.destroy B old c with
    | (Except.ok u, c1) => (Except.ok u, { c1 with cursor_ := none })
    | (Except.error e, c1) => (Except.error e, c1)

/-- `SqlConnection::clear()`. -/
def SqlConnection.clear {σ : Type} (B : SqlBackend σ) (c : SqlConnection σ) :
    Except Exn Unit × SqlConnection σ :=
  match SqlConnection.reset_cursor B c with
  | (Except.ok u, c1) => (Except.ok u, c1)
  | (Except.error e, c1) => (Except.error e, SqlConnection.mark_bad e c1)

/-- `SqlConnection::exec_direct(sql)`. The cursor is a local of the function:
`cursor_` is not touched. When `cursor->exec_direct` throws, the local cursor
is destroyed while the exception propagates; the outcome of that destruction
cannot reach the caller, the call is recorded. -/
def SqlConnection.exec_direct {σ : Type} (B : SqlBackend σ) (sql : String)
    (c : SqlConnection σ) : Except Exn SqlResultSet × SqlConnection σ :=
  match SqlCursor.new B c with
  | (Except.error e, c1) => (Except.error e, SqlConnection.mark_bad e c1)
  | (Except.ok cursor, c1) =>
    match SqlCursor.exec_direct B cursor sql c1 with
    | (Except.error e, c2) => (Except.error e, (SqlCursor.destroy B cursor c2).2)
    | (Except.ok rs, c2) => SqlResultSet.own B rs cursor c2

/-- `SqlConnection::prepare(sql)`. -/
def SqlConnection.prepare {σ : Type} (B : SqlBackend σ) (sql : String)
    (c : SqlConnection σ) : Except Exn Unit × SqlConnection σ :=
  match SqlConnection.reset_cursor B c with
  | (Except.error e, c1) => (Except.error e, SqlConnection.mark_bad e c1)
  | (Except.ok _, c1) =>
    match SqlCursor.new B c1 with
    | (Except.error e, c2) => (Except.error e, SqlConnection.mark_bad e c2)
    | (Except.ok cursor, c2) =>
      SqlCursor.prepare B cursor sql { c2 with cursor_ := some cursor }

/-- Modelled from the spec: the `YB_ASSERT` macro applied to a pointer (the
macro is defined in a header that is not part of the sources). Spec section
4.3 and 7: a caller that uses the connection without a prepared cursor commits
a protocol violation, which fails with UsageError ("no prepared statement").
A non-null pointer passes and is what the following statement dereferences. -/
def YB_ASSERT {α : Type} (p : Option α) : Except Exn α :=
  match p with
  | some x => Except.ok x
  | none => Except.error ⟨ErrorKind.UsageError, "no prepared statement"⟩

/-- `SqlConnection::exec(params)`. -/
def SqlConnection.exec {σ : Type} (B : SqlBackend σ) (params : Values)
    (c : SqlConnection σ) : Except Exn SqlResultSet × SqlConnection σ :=
  match YB_ASSERT c.cursor_ with
  | Except.error e => (Except.error e, c)
  | Except.ok cursor => SqlCursor.exec B cursor params c

/-- `SqlConnection::fetch_row()`. -/
def SqlConnection.fetch_row {σ : Type} (B : SqlBackend σ) (c : SqlConnection σ) :
    Except Exn (Option Row) × SqlConnection σ :=
  match YB_ASSERT c.cursor_ with
  | Except.error e => (Except.error e, c)
  | Except.ok cursor => SqlCursor.fetch_row B cursor c

/-- `SqlConnection::fetch_rows(max_rows)`. -/
def SqlConnection.fetch_rows {σ : Type} (B : SqlBackend σ) (max_rows : Int)
    (c : SqlConnection σ) : Except Exn Rows × SqlConnection σ :=
  match YB_ASSERT c.cursor_ with
  | Except.error e => (Except.error e, c)
  | Except.ok cursor => SqlCursor.fetch_rows B cursor max_rows c

/-- The first `try` block of the destructor: `clear()`, then `rollback()`
when `activity_` is set. -/
def SqlConnection.destroy_release {σ : Type} (B : SqlBackend σ) (c : SqlConnection σ) :
    Except Exn Unit × SqlConnection σ :=
  match SqlConnection.clear B c with
  | (Except.error e, c1) => (Except.error e, c1)
  | (Except.ok u, c1) =>
    if c1.activity_ then SqlConnection.rollback B c1 else (Except.ok u, c1)

/-- `SqlConnection::~SqlConnection()`: each `try` block is followed by a
handler for `std::exception` that only sets `err`; the result is what leaves
the destructor body. -/
def SqlConnection.destroy {σ : Type} (B : SqlBackend σ) (c : SqlConnection σ) :
    Except Exn Unit × SqlConnection σ :=
  let err0 := false
  let t1 := SqlConnection.destroy_release B c
  let err1 := match t1.1 with
    | Except.error _ => true
    | Except.ok _ => err0
  let t2 := SqlConnection.invoke BackendCall.conn_close B.close t1.2
  let err2 := match t2.1 with
    | Except.error _ => true
    | Except.ok _ => err1
  let c3 := if err2 then DBG t2.2.log_ "error while closing connection" t2.2 else t2.2
  (Except.ok (), c3)

/-! ## Sequences of operations on one connection -/

/-- An operation a caller can apply to a connection: the member functions of
`SqlConnection` and those of a `SqlCursor` bound to it (a transient cursor is
held by the result set of `exec_direct`). -/
inductive ConnOp where
  | exec_direct (sql : String)
  | prepare (sql : String)
  | exec (params : Values)
  | fetch_row
  | fetch_rows (max_rows : Int)
  | commit
  | rollback
  | clear
  | mark_bad (e : Exn)
  | cursor_exec_direct (cursor : SqlCursor) (sql : String)
  | cursor_prepare (cursor : SqlCursor) (sql : String)
  | cursor_exec (cursor : SqlCursor) (params : Values)
  | cursor_fetch_row (cursor : SqlCursor)
  | cursor_fetch_rows (cursor : SqlCursor) (max_rows : Int)
  deriving DecidableEq, Repr

/-- The connection an operation leaves behind, whether it returned or threw. -/
def ConnOp.run {σ : Type} (B : SqlBackend σ) (op : ConnOp) (c : SqlConnection σ) :
    SqlConnection σ :=
  match op with
  | ConnOp.exec_direct sql => (SqlConnection.exec_direct B sql c).2
  | ConnOp.prepare sql => (SqlConnection.prepare B sql c).2
  | ConnOp.exec params => (SqlConnection.exec B params c).2
  | ConnOp.fetch_row => (SqlConnection.fetch_row B c).2
  | ConnOp.fetch_rows max_rows => (SqlConnection.fetch_rows B max_rows c).2
  | ConnOp.commit => (SqlConnection.commit B c).2
  | ConnOp.rollback => (SqlConnection.rollback B c).2
  | ConnOp.clear => (SqlConnection.clear B c).2
  | ConnOp.mark_bad e => SqlConnection.mark_bad e c
  | ConnOp.cursor_exec_direct cursor sql => (SqlCursor.exec_direct B cursor sql c).2
  | ConnOp.cursor_prepare cursor sql => (SqlCursor.prepare B cursor sql c).2
  | ConnOp.cursor_exec cursor params => (SqlCursor.exec B cursor params c).2
  | ConnOp.cursor_fetch_row cursor => (SqlCursor.fetch_row B cursor c).2
  | ConnOp.cursor_fetch_rows cursor max_rows => (SqlCursor.fetch_rows B cursor max_rows c).2

/-- The connection left by a sequence of operations, applied in order. -/
def ConnOp.run_all {σ : Type} (B : SqlBackend σ) (ops : List ConnOp)
    (c : SqlConnection σ) : SqlConnection σ :=
  ops.foldl (fun acc op => ConnOp.run B op acc) c

/-- The backend calls made between the connection state `c` and the later
state `c1`. -/
def new_events {σ : Type} (c c1 : SqlConnection σ) : List BackendEvent :=
  c1.calls.drop c.calls.length

/-- The member functions called between `c` and `c1`, without their outcomes. -/
def new_calls {σ : Type} (c c1 : SqlConnection σ) : List BackendCall :=
  (new_events c c1).map BackendEvent.call

/-! ## Properties of a call, stated over the record of backend calls -/

/-- Every exception the backend raised during a call is the exception the
caller receives, and the connection is left with `bad_` set. `c` is the
connection before the call, `out` the result and the connection after it. -/
def ReraisedAndPoisoned {σ α : Type} (c : SqlConnection σ)
    (out : Except Exn α × SqlConnection σ) : Prop :=
  ∀ e, (∃ ev ∈ new_events c out.2, ev.raised = some e) →
    out.1 = Except.error e ∧ out.2.bad_ = true

/-- What C9 states of the teardown of `c`: when `activity_` is set the backend
rollback is called exactly once, commit never, and rollback comes before
close; when it is not set, rollback is not called. -/
def TeardownRollsBack {σ : Type} (B : SqlBackend σ) (c : SqlConnection σ) : Prop :=
  (c.activity_ = true →
    (new_calls c (SqlConnection.destroy B c).2).count BackendCall.conn_rollback = 1 ∧
    (new_calls c (SqlConnection.destroy B c).2).count BackendCall.conn_commit = 0 ∧
    ∃ before after, new_calls c (SqlConnection.destroy B c).2 =
      before ++ BackendCall.conn_rollback :: after ∧ BackendCall.conn_close ∈ after ∧
      BackendCall.conn_close ∉ before) ∧
  (c.activity_ = false →
    (new_calls c (SqlConnection.destroy B c).2).count BackendCall.conn_rollback = 0)

/-- The call `cursor_.reset(NULL)` makes: the release of the cursor held. -/
def release_calls {σ : Type} (c : SqlConnection σ) : List BackendCall :=
  match c.cursor_ with
  | none => []
  | some old => [BackendCall.cursor_release old.backend_]

/-- The events `cursor_.reset(NULL)` adds: the release of the cursor held. -/
def reset_events {σ : Type} (B : SqlBackend σ) (c : SqlConnection σ) : List BackendEvent :=
  match c.cursor_ with
  | none => []
  | some old =>
    [⟨BackendCall.cursor_release old.backend_, raised (B.release old.backend_ c.backend_).1⟩]

/-! ## Concrete registries, drivers and backends used as instances -/

/-- What every reachable dialect registry satisfies: it is empty or starts
with the four built-ins, and no name is listed twice. -/
def DialectRegistryInv (r : ItemRegistry SqlDialect) : Prop :=
  (r = [] ∨ ∃ rest, r = register_std_dialects [] ++ rest) ∧
    (ItemRegistry.list_items r).Nodup

/-- A dialect that takes the name of a built-in. -/
def ImpostorDialect : SqlDialect := { MysqlDialect with name := "ORACLE" }

/-- A driver object named `ODBC` over a backend whose state is a number. -/
def OdbcLikeDriver : SqlDriver Nat := ⟨"ODBC", 0⟩

/-- A backend whose state is the list of rows still pending: every call
succeeds, `new_cursor` hands out the handle 1 and `fetch_row` the pending rows
in order. -/
def RowsBackend : SqlBackend (List Row) where
  open_ := fun _ _ s => (Except.ok (), s)
  new_cursor := fun s => (Except.ok 1, s)
  commit := fun s => (Except.ok (), s)
  rollback := fun s => (Except.ok (), s)
  close := fun s => (Except.ok (), s)
  exec_direct := fun _ _ s => (Except.ok (), s)
  prepare := fun _ _ s => (Except.ok (), s)
  exec := fun _ _ s => (Except.ok (), s)
  fetch_row := fun _ s =>
    match s with
    | [] => (Except.ok none, [])
    | row :: rest => (Except.ok (some row), rest)
  release := fun _ s => (Except.ok (), s)

/-- The driver named `ODBC` whose backend starts with the given pending rows. -/
def RowsDriver (rows : List Row) : SqlDriver (List Row) := ⟨"ODBC", rows⟩

/-- A backend on which every call after `open` and `new_cursor` raises `e`. -/
def FailingBackend (e : Exn) : SqlBackend (List Row) where
  open_ := fun _ _ s => (Except.ok (), s)
  new_cursor := fun s => (Except.ok 1, s)
  commit := fun s => (Except.error e, s)
  rollback := fun s => (Except.error e, s)
  close := fun s => (Except.error e, s)
  exec_direct := fun _ _ s => (Except.error e, s)
  prepare := fun _ _ s => (Except.error e, s)
  exec := fun _ _ s => (Except.error e, s)
  fetch_row := fun _ s => (Except.error e, s)
  release := fun _ s => (Except.error e, s)

/-- A backend on which only the destruction of a cursor raises `e`. -/
def ReleaseFailsBackend (e : Exn) : SqlBackend (List Row) :=
  { RowsBackend with release := fun _ s => (Except.error e, s) }

/-- The exception a failing backend raises in the instances below. -/
def lost_link : Exn := GenericDBError "connection lost"

/-- A connection as the constructor leaves it for the driver `ODBC` and the
dialect ORACLE, over a backend with the given pending rows. -/
def fresh_connection (rows : List Row) : SqlConnection (List Row) :=
  { source_ := ⟨"db", "", "ORACLE", "db", "user", "passwd"⟩
    driver_ := RowsDriver rows
    dialect_ := OracleDialect
    activity_ := false
    echo_ := false
    bad_ := false
    free_since_ := 0
    log_ := none
    backend_ := rows
    cursor_ := none
    calls := [⟨BackendCall.conn_open, none⟩]
    debug_log := [] }

/-- A backend whose state counts the statement handles handed out:
`new_cursor` returns the count and increments it, so that every cursor gets a
handle of its own; every call succeeds and there are no rows. -/
def CountingBackend : SqlBackend Nat where
  open_ := fun _ _ s => (Except.ok (), s)
  new_cursor := fun s => (Except.ok s, s + 1)
  commit := fun s => (Except.ok (), s)
  rollback := fun s => (Except.ok (), s)
  close := fun s => (Except.ok (), s)
  exec_direct := fun _ _ s => (Except.ok (), s)
  prepare := fun _ _ s => (Except.ok (), s)
  exec := fun _ _ s => (Except.ok (), s)
  fetch_row := fun _ s => (Except.ok none, s)
  release := fun _ s => (Except.ok (), s)

/-- A connection as the constructor leaves it for the driver `ODBC` and the
dialect ORACLE, over the counting backend. -/
def counting_connection : SqlConnection Nat :=
  { source_ := ⟨"db", "", "ORACLE", "db", "user", "passwd"⟩
    driver_ := OdbcLikeDriver
    dialect_ := OracleDialect
    activity_ := false
    echo_ := false
    bad_ := false
    free_since_ := 0
    log_ := none
    backend_ := 0
    cursor_ := none
    calls := [⟨BackendCall.conn_open, none⟩]
    debug_log := [] }

/-- A backend that cannot hand out a statement handle: `new_cursor` raises
`e`, every other call succeeds. -/
def NoCursorBackend (e : Exn) : SqlBackend (List Row) :=
  { RowsBackend with new_cursor := fun s => (Except.error e, s) }

/-- A backend that rejects one misspelt statement: `exec_direct` of
`selec 1` raises a syntax error, every other call succeeds. -/
def SyntaxCheckingBackend : SqlBackend (List Row) :=
  { RowsBackend with
    exec_direct := fun _ sql s =>
      if sql = "selec 1" then (Except.error (GenericDBError "syntax error"), s)
      else (Except.ok (), s) }

/-- The connection a failed `exec_direct` of the misspelt statement leaves
behind on that backend: `bad_` is set. -/
def poisoned_connection : SqlConnection (List Row) :=
  (SqlConnection.exec_direct SyntaxCheckingBackend "selec 1" (fresh_connection [])).2

/-- The connection `c` as it would be had nothing poisoned it: the same in
every member but `bad_`, which is cleared. -/
def SqlConnection.healthy {σ : Type} (c : SqlConnection σ) : SqlConnection σ :=
  { c with bad_ := false }

/-- Two outcomes of a call agree in what the call did: the same result (the
same value or the same exception), the same record of backend calls, the same
backend state, and the same `cursor_` and `activity_`. They may differ in
`bad_` and in the log line `mark_bad` writes. -/
def SameOutcome {σ α : Type} (out out0 : Except Exn α × SqlConnection σ) : Prop :=
  out.1 = out0.1 ∧ out.2.calls = out0.2.calls ∧ out.2.backend_ = out0.2.backend_ ∧
    out.2.cursor_ = out0.2.cursor_ ∧ out.2.activity_ = out0.2.activity_

/-! ## The claims on statement cursors, activity and poisoning, as stated -/

/-- What C11 states of `exec_direct(sql)` on a connection `c` that holds a
prepared cursor: afterwards the connection holds no cursor, a following
`exec(params)` fails with a `UsageError`, and a result set that is returned
owns the cursor it reads from. -/
def ExecDirectDiscardsPrepared {σ : Type} (B : SqlBackend σ) (sql : String)
    (c : SqlConnection σ) : Prop :=
  c.cursor_ ≠ none →
    (SqlConnection.exec_direct B sql c).2.cursor_ = none ∧
    (∀ params, ∃ e,
      (SqlConnection.exec B params (SqlConnection.exec_direct B sql c).2).1 = Except.error e ∧
      e.kind = ErrorKind.UsageError) ∧
    (∀ rs, (SqlConnection.exec_direct B sql c).1 = Except.ok rs →
      rs.owned_cursor_ = some rs.cursor_)

/-- What C15 states of the calls on a connection `c`: `activity_` is set after
every `exec_direct`, `prepare` and `exec`, cleared after every `commit` and
`rollback`, and left as it was by the fetches, whatever the backend does. -/
def ActivityTracked {σ : Type} (B : SqlBackend σ) (sql : String) (params : Values)
    (max_rows : Int) (c : SqlConnection σ) : Prop :=
  (SqlConnection.exec_direct B sql c).2.activity_ = true ∧
  (SqlConnection.prepare B sql c).2.activity_ = true ∧
  (SqlConnection.exec B params c).2.activity_ = true ∧
  (SqlConnection.commit B c).2.activity_ = false ∧
  (SqlConnection.rollback B c).2.activity_ = false ∧
  (SqlConnection.fetch_row B c).2.activity_ = c.activity_ ∧
  (SqlConnection.fetch_rows B max_rows c).2.activity_ = c.activity_

/-- A call failed fast: it threw and made no backend call. `c` is the
connection before the call, `out` the result and the connection after it. -/
def FailedFast {σ α : Type} (c : SqlConnection σ) (out : Except Exn α × SqlConnection σ) :
    Prop :=
  (∃ e, out.1 = Except.error e) ∧ new_calls c out.2 = []

/-- What C16 states of a connection `c` whose `bad_` is set: `exec_direct`,
`prepare`, `exec`, `commit` and `rollback` all fail fast. -/
def FailsFastWhenBad {σ : Type} (B : SqlBackend σ) (sql : String) (params : Values)
    (c : SqlConnection σ) : Prop :=
  c.bad_ = true →
    FailedFast c (SqlConnection.exec_direct B sql c) ∧
    FailedFast c (SqlConnection.prepare B sql c) ∧
    FailedFast c (SqlConnection.exec B params c) ∧
    FailedFast c (SqlConnection.commit B c) ∧
    FailedFast c (SqlConnection.rollback B c)

/-- The backend statement behind the handle `h` serves its pending rows in
order: `view` reads the rows still pending off a backend state, a fetch hands
out the first of them and removes it, and a fetch on an exhausted statement
reports the end of data and leaves it exhausted. -/
def FetchesFrom {σ : Type} (B : SqlBackend σ) (h : Nat) (view : σ → List Row) : Prop :=
  ∀ s, (B.fetch_row h s).1 = Except.ok (view s).head? ∧
    view (B.fetch_row h s).2 = (view s).tail

/-! ## The string helpers and `param_impl` of `tiodbc.cpp` (lines 44-65, 508-540) -/

/-- `str_length(s)` on the buffer `s` points to, a character being its code:
the number of characters before the first zero. `none` when the buffer holds
no zero, in which case the loop reads past its end. -/
def str_length : List Nat → Option Nat
  | [] => none
  | x :: xs => if x = 0 then some 0 else (str_length xs).map (fun n => n + 1)

/-- `str_copy(dst, src)`: the buffer `dst` after the loop
`while (*src) *dst++ = *src++;`. `none` when the loop leaves either buffer. -/
def str_copy : List Nat → List Nat → Option (List Nat)
  | _, [] => none
  | dst, x :: xs =>
    if x = 0 then some dst
    else
      match dst with
      | [] => none
      | _ :: ds => (str_copy ds xs).map (fun t => x :: t)

/-- `new T[m]` for a character type `T`: the elements are not initialised;
`fresh i` is the value element `i` of the new array happens to hold. -/
def new_array (fresh : Nat → Nat) (m : Nat) : List Nat :=
  (List.range m).map fresh

/-- `str_duplicate(s)`. -/
def str_duplicate (fresh : Nat → Nat) (s : List Nat) : Option (List Nat) :=
  match str_length s with
  | none => none
  | some n => str_copy (new_array fresh (n + 1)) s

/-- The buffer `s` is a zero-terminated string of `n` characters. -/
def ZeroTerminated (s : List Nat) (n : Nat) : Prop :=
  str_length s = some n

/-- What C17 states of `str_duplicate(s)` for a zero-terminated `s` of length
`n`: the result has `n + 1` elements, the first `n` are those of `s`, element
`n` is zero, and its `str_length` is that of `s`. -/
def DuplicatesString (fresh : Nat → Nat) (s : List Nat) (n : Nat) : Prop :=
  ∃ t, str_duplicate fresh s = some t ∧ t.length = n + 1 ∧
    t.take n = s.take n ∧ t[n]? = some 0 ∧ str_length t = str_length s

/-- A pointer to a character array as `param_impl` holds it: null, pointing
to a live array, or left pointing to an array that `delete []` has freed. -/
inductive CharPtr where
  | null
  | live (buf : List Nat)
  | freed
  deriving DecidableEq, Repr

/-- The members of `param_impl` its copy functions touch: the statement
handle, the parameter number and `_int_string`, the bound string. -/
structure param_impl where
  stmt_h : Nat
  par_num : Int
  int_string : CharPtr
  deriving DecidableEq, Repr

/-- `param_impl::param_impl(const param_impl & r)`: `_int_string` starts null
and, when `r` has a string, becomes its duplicate. `none` when `str_duplicate`
leaves a buffer or reads a freed one. -/
def param_impl.copy (fresh : Nat → Nat) (r : param_impl) : Option param_impl :=
  match r.int_string with
  | CharPtr.null => some ⟨r.stmt_h, r.par_num, CharPtr.null⟩
  | CharPtr.freed => none
  | CharPtr.live s =>
    match str_duplicate fresh s with
    | none => none
    | some t => some ⟨r.stmt_h, r.par_num, CharPtr.live t⟩

/-- `param_impl::operator=(const param_impl & r)` on the object `self`: the
handle and the number are copied, the old string is deleted, and when `r` has
a string `_int_string` becomes its duplicate; when it has none `_int_string`
keeps pointing to the deleted array. `none` when a freed array is deleted or
read, or `str_duplicate` leaves a buffer. -/
def param_impl.assign (fresh : Nat → Nat) (self r : param_impl) : Option param_impl :=
  match self.int_string with
  | CharPtr.freed => none
  | old =>
    match r.int_string with
    | CharPtr.null =>
      some ⟨r.stmt_h, r.par_num,
        match old with
        | CharPtr.live _ => CharPtr.freed
        | p => p⟩
    | CharPtr.freed => none
    | CharPtr.live s =>
      match str_duplicate fresh s with
      | none => none
      | some t => some ⟨r.stmt_h, r.par_num, CharPtr.live t⟩

/-! ## Lemmas on the registries -/

theorem OracleDialect_get_name : OracleDialect.get_name = "ORACLE" := rfl

theorem PostgresDialect_get_name : PostgresDialect.get_name = "POSTGRES" := rfl

theorem MysqlDialect_get_name : MysqlDialect.get_name = "MYSQL" := rfl

theorem InterbaseDialect_get_name : InterbaseDialect.get_name = "INTERBASE" := rfl

/-- The registry `register_std_dialects` builds from the empty one. -/
theorem std_dialects_eq : register_std_dialects [] =
    [("ORACLE", OracleDialect), ("POSTGRES", PostgresDialect),
     ("MYSQL", MysqlDialect), ("INTERBASE", InterbaseDialect)] := by
  rfl

/-- A name has no entry exactly when `list_items` does not list it. -/
theorem find_item_none_iff {Item : Type} (r : ItemRegistry Item) (name : String) :
    ItemRegistry.find_item r name = none ↔ name ∉ ItemRegistry.list_items r := by
  induction r with
  | nil => simp [ItemRegistry.find_item, ItemRegistry.list_items]
  | cons hd tl ih =>
    obtain ⟨k, v⟩ := hd
    by_cases hk : k = name
    · simp [ItemRegistry.find_item, ItemRegistry.list_items, hk]
    · have hne : ¬ name = k := fun h => hk h.symm
      simp only [ItemRegistry.find_item, hk, if_false, ih]
      simp [ItemRegistry.list_items, hne]

/-- A listed name has an entry. -/
theorem find_item_of_mem {Item : Type} (r : ItemRegistry Item) (name : String)
    (h : name ∈ ItemRegistry.list_items r) :
    ∃ item, ItemRegistry.find_item r name = some item := by
  cases hf : ItemRegistry.find_item r name with
  | none => exact absurd h ((find_item_none_iff r name).1 hf)
  | some item => exact ⟨item, rfl⟩

/-- Lookup in a registry extended at the end: the older entries win. -/
theorem find_item_append {Item : Type} (r t : ItemRegistry Item) (name : String) :
    ItemRegistry.find_item (r ++ t) name =
      match ItemRegistry.find_item r name with
      | some item => some item
      | none => ItemRegistry.find_item t name := by
  induction r with
  | nil => simp [ItemRegistry.find_item]
  | cons hd tl ih =>
    obtain ⟨k, v⟩ := hd
    by_cases hk : k = name
    · simp [ItemRegistry.find_item, hk]
    · simp only [List.cons_append, ItemRegistry.find_item, hk, if_false]
      exact ih

/-- The registry after the lazy seeding step of the three access functions. -/
theorem seeded_eq (r : ItemRegistry SqlDialect) :
    (if ItemRegistry.empty r then register_std_dialects r else r) =
      (list_sql_dialects r).2 := rfl

theorem seeded_inv (r : ItemRegistry SqlDialect) (h : DialectRegistryInv r) :
    (∃ rest, (list_sql_dialects r).2 = register_std_dialects [] ++ rest) ∧
      (ItemRegistry.list_items (list_sql_dialects r).2).Nodup := by
  obtain ⟨h1, h2⟩ := h
  rcases h1 with h1 | ⟨rest, h1⟩
  · subst h1
    refine ⟨⟨[], by simp [list_sql_dialects, ItemRegistry.empty]⟩, ?_⟩
    simp [list_sql_dialects, ItemRegistry.empty, std_dialects_eq, ItemRegistry.list_items]
  · refine ⟨⟨rest, ?_⟩, ?_⟩
    · subst h1
      simp [list_sql_dialects, ItemRegistry.empty, std_dialects_eq]
    · have : (list_sql_dialects r).2 = r := by
        subst h1
        simp [list_sql_dialects, ItemRegistry.empty, std_dialects_eq]
      rw [this]
      exact h2

theorem register_item_inv (r : ItemRegistry SqlDialect) (name : String) (d : SqlDialect)
    (h1 : ∃ rest, r = register_std_dialects [] ++ rest)
    (h2 : (ItemRegistry.list_items r).Nodup) :
    DialectRegistryInv (ItemRegistry.register_item r name d).2 := by
  unfold ItemRegistry.register_item
  cases hf : ItemRegistry.find_item r name with
  | some item => exact ⟨Or.inr h1, h2⟩
  | none =>
    obtain ⟨rest, hr⟩ := h1
    refine ⟨Or.inr ⟨rest ++ [(name, d)], by simp [hr]⟩, ?_⟩
    have hn := (find_item_none_iff r name).1 hf
    simp only [ItemRegistry.list_items, List.map_append, List.map_cons, List.map_nil]
    rw [List.nodup_append]
    refine ⟨h2, by simp, ?_⟩
    intro a ha hb
    simp only [List.mem_singleton] at hb
    subst hb
    exact hn ha

/-- Every reachable dialect registry satisfies the invariant. -/
theorem reachable_inv (r : ItemRegistry SqlDialect) (h : DialectRegistryReachable r) :
    DialectRegistryInv r := by
  induction h with
  | start => exact ⟨Or.inl rfl, by simp [ItemRegistry.list_items]⟩
  | get r name _ ih =>
    have hs := seeded_inv r ih
    have : (sql_dialect r name).2 = (list_sql_dialects r).2 := by
      unfold sql_dialect list_sql_dialects
      simp only
      split <;> rfl
    rw [this]
    exact ⟨Or.inr hs.1, hs.2⟩
  | register r d _ ih =>
    have hs := seeded_inv r ih
    exact register_item_inv _ _ _ hs.1 hs.2
  | list r _ ih =>
    have hs := seeded_inv r ih
    exact ⟨Or.inr hs.1, hs.2⟩

theorem sql_dialect_snd (r : ItemRegistry SqlDialect) (name : String) :
    (sql_dialect r name).2 = (list_sql_dialects r).2 := by
  unfold sql_dialect list_sql_dialects
  simp only
  split <;> rfl

theorem sql_dialect_found (r : ItemRegistry SqlDialect) (name : String) (d : SqlDialect)
    (h : ItemRegistry.find_item (list_sql_dialects r).2 name = some d) :
    (sql_dialect r name).1 = Except.ok d := by
  unfold sql_dialect
  simp only [seeded_eq, h]

theorem sql_dialect_not_found (r : ItemRegistry SqlDialect) (name : String)
    (h : ItemRegistry.find_item (list_sql_dialects r).2 name = none) :
    (sql_dialect r name).1 =
      Except.error (SqlDialectError ("Unknown dialect: " ++ name)) := by
  unfold sql_dialect
  simp only [seeded_eq, h]

/-- In a registry that starts with the built-ins, a built-in name resolves to
the built-in. -/
theorem find_std (rest : ItemRegistry SqlDialect) :
    ItemRegistry.find_item (register_std_dialects [] ++ rest) "ORACLE" = some OracleDialect ∧
    ItemRegistry.find_item (register_std_dialects [] ++ rest) "POSTGRES" = some PostgresDialect ∧
    ItemRegistry.find_item (register_std_dialects [] ++ rest) "MYSQL" = some MysqlDialect ∧
    ItemRegistry.find_item (register_std_dialects [] ++ rest) "INTERBASE" =
      some InterbaseDialect := by
  rw [std_dialects_eq]
  simp [ItemRegistry.find_item]

/-- In a reachable registry the four built-in names resolve to the built-ins. -/
theorem sql_dialect_builtin (r : ItemRegistry SqlDialect) (h : DialectRegistryReachable r) :
    (sql_dialect r "ORACLE").1 = Except.ok OracleDialect ∧
    (sql_dialect r "POSTGRES").1 = Except.ok PostgresDialect ∧
    (sql_dialect r "MYSQL").1 = Except.ok MysqlDialect ∧
    (sql_dialect r "INTERBASE").1 = Except.ok InterbaseDialect := by
  obtain ⟨⟨rest, hr⟩, _⟩ := seeded_inv r (reachable_inv r h)
  have hf := find_std rest
  rw [← hr] at hf
  exact ⟨sql_dialect_found r _ _ hf.1, sql_dialect_found r _ _ hf.2.1,
    sql_dialect_found r _ _ hf.2.2.1, sql_dialect_found r _ _ hf.2.2.2⟩

/-! ## Dialects: the properties -/

/-- C1: in every reachable state of the dialect registry and for every
sequence name `s`, the dialect obtained by name behaves as the table of spec
section 4.1: ORACLE gives `s.NEXTVAL` and `s.CURRVAL`, POSTGRES `NEXTVAL('s')`
and `CURRVAL('s')`, INTERBASE `GEN_ID(s, 1)` and `GEN_ID(s, 0)`, and for MYSQL
both functions throw a `SqlDialectError` and return no string. -/
theorem builtin_dialects_by_name_sequence_sql (r : ItemRegistry SqlDialect)
    (h : DialectRegistryReachable r) (s : String) :
    (∃ d, (sql_dialect r "ORACLE").1 = Except.ok d ∧
      d.select_next_value s = Except.ok (s ++ ".NEXTVAL") ∧
      d.select_curr_value s = Except.ok (s ++ ".CURRVAL")) ∧
    (∃ d, (sql_dialect r "POSTGRES").1 = Except.ok d ∧
      d.select_next_value s = Except.ok ("NEXTVAL('" ++ s ++ "')") ∧
      d.select_curr_value s = Except.ok ("CURRVAL('" ++ s ++ "')")) ∧
    (∃ d, (sql_dialect r "INTERBASE").1 = Except.ok d ∧
      d.select_next_value s = Except.ok ("GEN_ID(" ++ s ++ ", 1)") ∧
      d.select_curr_value s = Except.ok ("GEN_ID(" ++ s ++ ", 0)")) ∧
    (∃ d, (sql_dialect r "MYSQL").1 = Except.ok d ∧
      (∃ e, d.select_next_value s = Except.error e ∧ e.kind = ErrorKind.SqlDialectError) ∧
      (∃ e, d.select_curr_value s = Except.error e ∧ e.kind = ErrorKind.SqlDialectError)) := by
  obtain ⟨ho, hp, hm, hi⟩ := sql_dialect_builtin r h
  exact ⟨⟨OracleDialect, ho, rfl, rfl⟩, ⟨PostgresDialect, hp, rfl, rfl⟩,
    ⟨InterbaseDialect, hi, rfl, rfl⟩,
    ⟨MysqlDialect, hm, ⟨_, rfl, rfl⟩, ⟨_, rfl, rfl⟩⟩⟩

/-- C1 at the registry of a fresh process and the sequence name `seq1`. -/
theorem builtin_dialects_by_name_sequence_sql_witness :
    DialectRegistryReachable [] ∧
    (∃ d, (sql_dialect [] "POSTGRES").1 = Except.ok d ∧
      d.select_next_value "seq1" = Except.ok "NEXTVAL('seq1')" ∧
      d.select_curr_value "seq1" = Except.ok "CURRVAL('seq1')") :=
  ⟨DialectRegistryReachable.start,
    (builtin_dialects_by_name_sequence_sql [] DialectRegistryReachable.start "seq1").2.1⟩

/-- C2: for every value `x`, `sql_value(x)` of the POSTGRES, MYSQL and
INTERBASE dialects is `x.sql_str()`; for ORACLE it is `timestamp` followed by
`x.sql_str()` when `x` is a DATETIME and `x.sql_str()` for every other type. -/
theorem builtin_dialects_sql_value (x : Value) :
    PostgresDialect.sql_value x = x.sql_str ∧
    MysqlDialect.sql_value x = x.sql_str ∧
    InterbaseDialect.sql_value x = x.sql_str ∧
    (x.get_type = ValueType.DATETIME →
      OracleDialect.sql_value x = "timestamp" ++ x.sql_str) ∧
    (x.get_type ≠ ValueType.DATETIME → OracleDialect.sql_value x = x.sql_str) := by
  refine ⟨rfl, rfl, rfl, ?_, ?_⟩
  · intro h
    simp [OracleDialect, h]
  · intro h
    simp [OracleDialect, h]

/-- C2 at a DATETIME value and at a STRING value. -/
theorem builtin_dialects_sql_value_witness :
    OracleDialect.sql_value ⟨ValueType.DATETIME, "'2011-01-02 03:04:05'"⟩ =
      "timestamp'2011-01-02 03:04:05'" ∧
    OracleDialect.sql_value ⟨ValueType.STRING, "'abc'"⟩ = "'abc'" :=
  ⟨(builtin_dialects_sql_value ⟨ValueType.DATETIME, "'2011-01-02 03:04:05'"⟩).2.2.2.1 rfl,
    (builtin_dialects_sql_value ⟨ValueType.STRING, "'abc'"⟩).2.2.2.2 (by decide)⟩

/-! ## The dialect registry: the properties -/

theorem seeded_idem (r : ItemRegistry SqlDialect) :
    list_sql_dialects (list_sql_dialects r).2 =
      (ItemRegistry.list_items (list_sql_dialects r).2, (list_sql_dialects r).2) := by
  cases r with
  | nil => rfl
  | cons hd tl => rfl

/-- C3: in every reachable state of the dialect registry, `sql_dialect(name)`
for a name that is not registered (not listed by `list_sql_dialects`) throws a
`SqlDialectError` whose message is `Unknown dialect: ` followed by the name;
and after any call of `sql_dialect`, failed or not, the registry holds the
four built-ins ORACLE, POSTGRES, MYSQL and INTERBASE, each listed once. -/
theorem sql_dialect_unknown_and_seeded (r : ItemRegistry SqlDialect)
    (h : DialectRegistryReachable r) (name : String) :
    (name ∉ (list_sql_dialects r).1 →
      ∃ e, (sql_dialect r name).1 = Except.error e ∧
        e.kind = ErrorKind.SqlDialectError ∧ e.what = "Unknown dialect: " ++ name) ∧
    ItemRegistry.find_item (sql_dialect r name).2 "ORACLE" = some OracleDialect ∧
    ItemRegistry.find_item (sql_dialect r name).2 "POSTGRES" = some PostgresDialect ∧
    ItemRegistry.find_item (sql_dialect r name).2 "MYSQL" = some MysqlDialect ∧
    ItemRegistry.find_item (sql_dialect r name).2 "INTERBASE" = some InterbaseDialect ∧
    (ItemRegistry.list_items (sql_dialect r name).2).count "ORACLE" = 1 ∧
    (ItemRegistry.list_items (sql_dialect r name).2).count "POSTGRES" = 1 ∧
    (ItemRegistry.list_items (sql_dialect r name).2).count "MYSQL" = 1 ∧
    (ItemRegistry.list_items (sql_dialect r name).2).count "INTERBASE" = 1 := by
  obtain ⟨⟨rest, hr⟩, hnd⟩ := seeded_inv r (reachable_inv r h)
  have hf := find_std rest
  rw [← hr] at hf
  rw [sql_dialect_snd]
  refine ⟨?_, hf.1, hf.2.1, hf.2.2.1, hf.2.2.2, ?_, ?_, ?_, ?_⟩
  · intro hn
    have hnone : ItemRegistry.find_item (list_sql_dialects r).2 name = none :=
      (find_item_none_iff _ _).2 hn
    exact ⟨_, sql_dialect_not_found r name hnone, rfl, rfl⟩
  all_goals
    apply List.count_eq_one_of_mem hnd
    rw [hr, std_dialects_eq]
    simp [ItemRegistry.list_items]

/-- C3 at the registry of a fresh process and the name `NOPE`. -/
theorem sql_dialect_unknown_and_seeded_witness :
    DialectRegistryReachable [] ∧ "NOPE" ∉ (list_sql_dialects []).1 ∧
    ∃ e, (sql_dialect [] "NOPE").1 = Except.error e ∧
      e.kind = ErrorKind.SqlDialectError ∧ e.what = "Unknown dialect: " ++ "NOPE" :=
  ⟨DialectRegistryReachable.start, by decide,
    (sql_dialect_unknown_and_seeded [] DialectRegistryReachable.start "NOPE").1 (by decide)⟩

/-- C4: when the name of `d` is already registered (listed by
`list_sql_dialects`, which counts the built-ins also when the registry was
empty before the call), `register_sql_dialect(d)` returns `false`, every name
still resolves to the dialect it resolved to before, the one registered under
the name of `d` in particular, and `list_sql_dialects()` is unchanged, its
length included. -/
theorem register_sql_dialect_existing_name (r : ItemRegistry SqlDialect) (d : SqlDialect)
    (h : d.get_name ∈ (list_sql_dialects r).1) :
    (register_sql_dialect r d).1 = false ∧
    (∃ d0, (sql_dialect r d.get_name).1 = Except.ok d0 ∧
      (sql_dialect (register_sql_dialect r d).2 d.get_name).1 = Except.ok d0) ∧
    (∀ name, (sql_dialect (register_sql_dialect r d).2 name).1 = (sql_dialect r name).1) ∧
    (list_sql_dialects (register_sql_dialect r d).2).1.length =
      (list_sql_dialects r).1.length := by
  obtain ⟨d0, hd0⟩ := find_item_of_mem (list_sql_dialects r).2 d.get_name h
  have hreg : register_sql_dialect r d = (false, (list_sql_dialects r).2) := by
    unfold register_sql_dialect
    simp only [seeded_eq]
    unfold ItemRegistry.register_item
    rw [hd0]
  have hall : ∀ name, (sql_dialect (list_sql_dialects r).2 name).1 = (sql_dialect r name).1 := by
    intro name
    unfold sql_dialect
    simp only [seeded_eq, seeded_idem]
  rw [hreg]
  refine ⟨rfl, ⟨d0, sql_dialect_found r _ _ hd0, ?_⟩, hall, ?_⟩
  · rw [hall]
    exact sql_dialect_found r _ _ hd0
  · rw [seeded_idem]
    rfl

/-- C4 at the registry of a fresh process and a dialect named ORACLE. -/
theorem register_sql_dialect_existing_name_witness :
    ImpostorDialect.get_name ∈ (list_sql_dialects []).1 ∧
    (register_sql_dialect [] ImpostorDialect).1 = false ∧
    (sql_dialect (register_sql_dialect [] ImpostorDialect).2 "ORACLE").1 =
      (sql_dialect [] "ORACLE").1 :=
  ⟨by decide,
    (register_sql_dialect_existing_name [] ImpostorDialect (by decide)).1,
    (register_sql_dialect_existing_name [] ImpostorDialect (by decide)).2.2.1 "ORACLE"⟩

/-! ## The driver registry: the properties -/

/-- The driver `sql_driver` resolves `name` to, if any: the entry of the
seeded registry under `DEFAULT_DRIVER` for the empty name and for `DEFAULT`,
under `name` itself otherwise. -/
theorem sql_driver_fst {σ : Type} (YB_USE_QT : Bool) (D : SqlDriver σ)
    (r : ItemRegistry (SqlDriver σ)) (name : String) :
    (sql_driver YB_USE_QT D r name).1 =
      match ItemRegistry.find_item (list_sql_drivers D r).2
        (if name = "" ∨ name = "DEFAULT" then DEFAULT_DRIVER YB_USE_QT else name) with
      | none => Except.error (SqlDriverError ("Unknown driver: " ++ name))
      | some d => Except.ok d := by
  unfold sql_driver list_sql_drivers str_empty
  by_cases h : name = "" ∨ name = "DEFAULT"
  · simp only [h, if_true]
    have : (decide (name = "") || decide (name = "DEFAULT")) = true := by
      simpa using h
    simp only [this, if_true]
    split <;> simp_all
  · simp only [h, if_false]
    have : (decide (name = "") || decide (name = "DEFAULT")) = false := by
      simpa using h
    simp only [this]
    split <;> simp_all

theorem sql_driver_snd {σ : Type} (YB_USE_QT : Bool) (D : SqlDriver σ)
    (r : ItemRegistry (SqlDriver σ)) (name : String) :
    (sql_driver YB_USE_QT D r name).2 = (list_sql_drivers D r).2 := by
  unfold sql_driver list_sql_drivers
  simp only
  split <;> rfl

theorem DEFAULT_DRIVER_verbatim (YB_USE_QT : Bool) :
    ¬ (DEFAULT_DRIVER YB_USE_QT = "" ∨ DEFAULT_DRIVER YB_USE_QT = "DEFAULT") := by
  cases YB_USE_QT <;> decide

/-- C5: `sql_driver("")` and `sql_driver("DEFAULT")` return the driver
registered under the compiled-in `DEFAULT_DRIVER`, the one
`sql_driver(DEFAULT_DRIVER)` returns, and leave the same registry; any other
name is looked up verbatim; and a name that resolves to no registered driver
throws a `SqlDriverError` (`Unknown driver: ` followed by the name). -/
theorem sql_driver_default_and_verbatim {σ : Type} (YB_USE_QT : Bool) (D : SqlDriver σ)
    (r : ItemRegistry (SqlDriver σ)) :
    (∀ d, (sql_driver YB_USE_QT D r "").1 = Except.ok d ↔
      (sql_driver YB_USE_QT D r (DEFAULT_DRIVER YB_USE_QT)).1 = Except.ok d) ∧
    (∀ d, (sql_driver YB_USE_QT D r "DEFAULT").1 = Except.ok d ↔
      (sql_driver YB_USE_QT D r (DEFAULT_DRIVER YB_USE_QT)).1 = Except.ok d) ∧
    (sql_driver YB_USE_QT D r "").2 = (sql_driver YB_USE_QT D r (DEFAULT_DRIVER YB_USE_QT)).2 ∧
    (sql_driver YB_USE_QT D r "DEFAULT").2 =
      (sql_driver YB_USE_QT D r (DEFAULT_DRIVER YB_USE_QT)).2 ∧
    (∀ name d, name ≠ "" → name ≠ "DEFAULT" →
      ((sql_driver YB_USE_QT D r name).1 = Except.ok d ↔
        ItemRegistry.find_item (list_sql_drivers D r).2 name = some d)) ∧
    (∀ name, (∀ d, (sql_driver YB_USE_QT D r name).1 ≠ Except.ok d) →
      ∃ e, (sql_driver YB_USE_QT D r name).1 = Except.error e ∧
        e.kind = ErrorKind.SqlDriverError ∧ e.what = "Unknown driver: " ++ name) := by
  have hdef := DEFAULT_DRIVER_verbatim YB_USE_QT
  have key : ∀ name d, (sql_driver YB_USE_QT D r name).1 = Except.ok d ↔
      ItemRegistry.find_item (list_sql_drivers D r).2
        (if name = "" ∨ name = "DEFAULT" then DEFAULT_DRIVER YB_USE_QT else name) = some d := by
    intro name d
    rw [sql_driver_fst]
    split <;> simp_all
  refine ⟨?_, ?_, ?_, ?_, ?_, ?_⟩
  · intro d
    rw [key, key]
    simp [hdef]
  · intro d
    rw [key, key]
    simp [hdef]
  · rw [sql_driver_snd, sql_driver_snd]
  · rw [sql_driver_snd, sql_driver_snd]
  · intro name d h1 h2
    rw [key]
    simp [h1, h2]
  · intro name hno
    rw [sql_driver_fst] at hno ⊢
    split
    · exact ⟨_, rfl, rfl, rfl⟩
    · rename_i d hd
      rw [hd] at hno
      exact absurd rfl (hno d)

/-- C5 at the registry of a fresh process in a build without Qt whose default
driver is named `ODBC`: the empty name resolves to it, `NOPE` is unknown. -/
theorem sql_driver_default_and_verbatim_witness :
    (sql_driver false OdbcLikeDriver [] "").1 = Except.ok OdbcLikeDriver ∧
    (∀ d, (sql_driver false OdbcLikeDriver [] "NOPE").1 ≠ Except.ok d) ∧
    ∃ e, (sql_driver false OdbcLikeDriver [] "NOPE").1 = Except.error e ∧
      e.kind = ErrorKind.SqlDriverError ∧ e.what = "Unknown driver: " ++ "NOPE" := by
  have hno : ∀ d, (sql_driver false OdbcLikeDriver [] "NOPE").1 ≠ Except.ok d := by
    intro d h
    have hv : (sql_driver false OdbcLikeDriver [] "NOPE").1 =
        Except.error (SqlDriverError "Unknown driver: NOPE") := rfl
    rw [hv] at h
    cases h
  exact ⟨((sql_driver_default_and_verbatim false OdbcLikeDriver []).1 OdbcLikeDriver).2 rfl,
    hno, (sql_driver_default_and_verbatim false OdbcLikeDriver []).2.2.2.2.2 "NOPE" hno⟩

/-! ## Lemmas on the connection -/

@[simp]
theorem DBG_calls {σ : Type} (l : Option Nat) (x : String) (c : SqlConnection σ) :
    (DBG l x c).calls = c.calls := by
  cases l <;> rfl

@[simp]
theorem DBG_bad {σ : Type} (l : Option Nat) (x : String) (c : SqlConnection σ) :
    (DBG l x c).bad_ = c.bad_ := by
  cases l <;> rfl

@[simp]
theorem DBG_backend {σ : Type} (l : Option Nat) (x : String) (c : SqlConnection σ) :
    (DBG l x c).backend_ = c.backend_ := by
  cases l <;> rfl

@[simp]
theorem DBG_activity {σ : Type} (l : Option Nat) (x : String) (c : SqlConnection σ) :
    (DBG l x c).activity_ = c.activity_ := by
  cases l <;> rfl

@[simp]
theorem DBG_cursor {σ : Type} (l : Option Nat) (x : String) (c : SqlConnection σ) :
    (DBG l x c).cursor_ = c.cursor_ := by
  cases l <;> rfl

@[simp]
theorem DBG_echo {σ : Type} (l : Option Nat) (x : String) (c : SqlConnection σ) :
    (DBG l x c).echo_ = c.echo_ := by
  cases l <;> rfl

@[simp]
theorem DBG_log {σ : Type} (l : Option Nat) (x : String) (c : SqlConnection σ) :
    (DBG l x c).log_ = c.log_ := by
  cases l <;> rfl

@[simp]
theorem mark_bad_calls {σ : Type} (e : Exn) (c : SqlConnection σ) :
    (SqlConnection.mark_bad e c).calls = c.calls := by
  unfold SqlConnection.mark_bad
  split <;> simp

@[simp]
theorem mark_bad_bad {σ : Type} (e : Exn) (c : SqlConnection σ) :
    (SqlConnection.mark_bad e c).bad_ = true := by
  unfold SqlConnection.mark_bad
  split
  · rfl
  · simp_all

@[simp]
theorem mark_bad_backend {σ : Type} (e : Exn) (c : SqlConnection σ) :
    (SqlConnection.mark_bad e c).backend_ = c.backend_ := by
  unfold SqlConnection.mark_bad
  split <;> simp

@[simp]
theorem mark_bad_activity {σ : Type} (e : Exn) (c : SqlConnection σ) :
    (SqlConnection.mark_bad e c).activity_ = c.activity_ := by
  unfold SqlConnection.mark_bad
  split <;> simp

@[simp]
theorem mark_bad_cursor {σ : Type} (e : Exn) (c : SqlConnection σ) :
    (SqlConnection.mark_bad e c).cursor_ = c.cursor_ := by
  unfold SqlConnection.mark_bad
  split <;> simp

/-- On a connection that is already bad `mark_bad` changes nothing. -/
theorem mark_bad_of_bad {σ : Type} (e : Exn) (c : SqlConnection σ) (h : c.bad_ = true) :
    SqlConnection.mark_bad e c = c := by
  unfold SqlConnection.mark_bad
  simp [h]

@[simp]
theorem invoke_fst {σ α : Type} (call : BackendCall) (op : σ → Except Exn α × σ)
    (c : SqlConnection σ) : (SqlConnection.invoke call op c).1 = (op c.backend_).1 := rfl

@[simp]
theorem invoke_calls {σ α : Type} (call : BackendCall) (op : σ → Except Exn α × σ)
    (c : SqlConnection σ) :
    (SqlConnection.invoke call op c).2.calls =
      c.calls ++ [⟨call, raised (op c.backend_).1⟩] := rfl

@[simp]
theorem invoke_bad {σ α : Type} (call : BackendCall) (op : σ → Except Exn α × σ)
    (c : SqlConnection σ) : (SqlConnection.invoke call op c).2.bad_ = c.bad_ := rfl

@[simp]
theorem invoke_activity {σ α : Type} (call : BackendCall) (op : σ → Except Exn α × σ)
    (c : SqlConnection σ) : (SqlConnection.invoke call op c).2.activity_ = c.activity_ := rfl

@[simp]
theorem invoke_cursor {σ α : Type} (call : BackendCall) (op : σ → Except Exn α × σ)
    (c : SqlConnection σ) : (SqlConnection.invoke call op c).2.cursor_ = c.cursor_ := rfl

@[simp]
theorem invoke_backend {σ α : Type} (call : BackendCall) (op : σ → Except Exn α × σ)
    (c : SqlConnection σ) : (SqlConnection.invoke call op c).2.backend_ = (op c.backend_).2 := rfl

theorem raised_eq_some {α : Type} (r : Except Exn α) (e : Exn) :
    raised r = some e ↔ r = Except.error e := by
  cases r <;> simp [raised]

/-- The calls between two states whose record differs by `evs`. -/
theorem new_events_of_append {σ : Type} (c c1 : SqlConnection σ) (evs : List BackendEvent)
    (h : c1.calls = c.calls ++ evs) : new_events c c1 = evs := by
  simp [new_events, h]

theorem new_calls_of_append {σ : Type} (c c1 : SqlConnection σ) (evs : List BackendEvent)
    (h : c1.calls = c.calls ++ evs) : new_calls c c1 = evs.map BackendEvent.call := by
  simp [new_calls, new_events_of_append c c1 evs h]

/-- A call that went to the backend once, returned what the backend returned
and marked the connection bad when that was an exception, re-raises and
poisons. -/
theorem reraised_of_single {σ α β : Type} (c : SqlConnection σ)
    (out : Except Exn α × SqlConnection σ) (call : BackendCall) (r : Except Exn β)
    (hcalls : out.2.calls = c.calls ++ [⟨call, raised r⟩])
    (herr : ∀ e, r = Except.error e → out.1 = Except.error e ∧ out.2.bad_ = true) :
    ReraisedAndPoisoned c out := by
  intro e ⟨ev, hev, hr⟩
  rw [new_events_of_append c out.2 _ hcalls] at hev
  simp only [List.mem_singleton] at hev
  subst hev
  exact herr e ((raised_eq_some r e).1 hr)

/-- `SqlCursor::exec_direct`: one backend call, activity set, the exception of
the backend re-raised with the connection marked bad. -/
theorem SqlCursor_exec_direct_spec {σ : Type} (B : SqlBackend σ) (cursor : SqlCursor)
    (sql : String) (c : SqlConnection σ) :
    (SqlCursor.exec_direct B cursor sql c).2.calls =
      c.calls ++ [⟨BackendCall.cursor_exec_direct cursor.backend_ sql,
        raised (B.exec_direct cursor.backend_ sql c.backend_).1⟩] ∧
    (∀ e, (B.exec_direct cursor.backend_ sql c.backend_).1 = Except.error e →
      (SqlCursor.exec_direct B cursor sql c).1 = Except.error e ∧
      (SqlCursor.exec_direct B cursor sql c).2.bad_ = true) ∧
    (c.bad_ = true → (SqlCursor.exec_direct B cursor sql c).2.bad_ = true) ∧
    (SqlCursor.exec_direct B cursor sql c).2.activity_ = true ∧
    (SqlCursor.exec_direct B cursor sql c).2.cursor_ = c.cursor_ := by
  unfold SqlCursor.exec_direct SqlConnection.invoke
  cases hecho : cursor.echo_ <;>
  rcases hb : B.exec_direct cursor.backend_ sql c.backend_ with ⟨r, b⟩ <;>
  cases r <;> simp [hb, raised]

/-- `SqlCursor::prepare`: as for `exec_direct`. -/
theorem SqlCursor_prepare_spec {σ : Type} (B : SqlBackend σ) (cursor : SqlCursor)
    (sql : String) (c : SqlConnection σ) :
    (SqlCursor.prepare B cursor sql c).2.calls =
      c.calls ++ [⟨BackendCall.cursor_prepare cursor.backend_ sql,
        raised (B.prepare cursor.backend_ sql c.backend_).1⟩] ∧
    (∀ e, (B.prepare cursor.backend_ sql c.backend_).1 = Except.error e →
      (SqlCursor.prepare B cursor sql c).1 = Except.error e ∧
      (SqlCursor.prepare B cursor sql c).2.bad_ = true) ∧
    (c.bad_ = true → (SqlCursor.prepare B cursor sql c).2.bad_ = true) ∧
    (SqlCursor.prepare B cursor sql c).2.activity_ = true ∧
    (SqlCursor.prepare B cursor sql c).2.cursor_ = c.cursor_ := by
  unfold SqlCursor.prepare SqlConnection.invoke
  cases hecho : cursor.echo_ <;>
  rcases hb : B.prepare cursor.backend_ sql c.backend_ with ⟨r, b⟩ <;>
  cases r <;> simp [hb, raised]

/-- `SqlCursor::exec`: as for `exec_direct`. -/
theorem SqlCursor_exec_spec {σ : Type} (B : SqlBackend σ) (cursor : SqlCursor)
    (params : Values) (c : SqlConnection σ) :
    (SqlCursor.exec B cursor params c).2.calls =
      c.calls ++ [⟨BackendCall.cursor_exec cursor.backend_ params,
        raised (B.exec cursor.backend_ params c.backend_).1⟩] ∧
    (∀ e, (B.exec cursor.backend_ params c.backend_).1 = Except.error e →
      (SqlCursor.exec B cursor params c).1 = Except.error e ∧
      (SqlCursor.exec B cursor params c).2.bad_ = true) ∧
    (c.bad_ = true → (SqlCursor.exec B cursor params c).2.bad_ = true) ∧
    (SqlCursor.exec B cursor params c).2.activity_ = true ∧
    (SqlCursor.exec B cursor params c).2.cursor_ = c.cursor_ := by
  unfold SqlCursor.exec SqlConnection.invoke
  cases hecho : cursor.echo_ <;>
  rcases hb : B.exec cursor.backend_ params c.backend_ with ⟨r, b⟩ <;>
  cases r <;> simp [hb, raised]

/-- `SqlCursor::fetch_row`: one backend call whose result is handed on; an
exception marks the connection bad; `activity_` and `cursor_` are untouched. -/
theorem SqlCursor_fetch_row_spec {σ : Type} (B : SqlBackend σ) (cursor : SqlCursor)
    (c : SqlConnection σ) :
    (SqlCursor.fetch_row B cursor c).1 = (B.fetch_row cursor.backend_ c.backend_).1 ∧
    (SqlCursor.fetch_row B cursor c).2.calls =
      c.calls ++ [⟨BackendCall.cursor_fetch_row cursor.backend_,
        raised (B.fetch_row cursor.backend_ c.backend_).1⟩] ∧
    (∀ e, (B.fetch_row cursor.backend_ c.backend_).1 = Except.error e →
      (SqlCursor.fetch_row B cursor c).2.bad_ = true) ∧
    (c.bad_ = true → (SqlCursor.fetch_row B cursor c).2.bad_ = true) ∧
    (SqlCursor.fetch_row B cursor c).2.activity_ = c.activity_ ∧
    (SqlCursor.fetch_row B cursor c).2.cursor_ = c.cursor_ ∧
    (SqlCursor.fetch_row B cursor c).2.backend_ =
      (B.fetch_row cursor.backend_ c.backend_).2 := by
  unfold SqlCursor.fetch_row SqlConnection.invoke
  cases hecho : cursor.echo_ <;>
  rcases hb : B.fetch_row cursor.backend_ c.backend_ with ⟨r, b⟩ <;>
  rcases r with e | (_ | row) <;> simp [hb, raised]

/-- `SqlResultSet::fetch` is `fetch_row` of its cursor. -/
theorem SqlResultSet_fetch_eq {σ : Type} (B : SqlBackend σ) (rs : SqlResultSet)
    (c : SqlConnection σ) :
    SqlResultSet.fetch B rs c = SqlCursor.fetch_row B rs.cursor_ c := by
  unfold SqlResultSet.fetch
  rcases h : SqlCursor.fetch_row B rs.cursor_ c with ⟨r, c1⟩
  rcases r with e | (_ | row) <;> rfl

/-- `SqlConnection::commit`: one backend call, activity cleared, the exception
of the backend re-raised with the connection marked bad. -/
theorem SqlConnection_commit_spec {σ : Type} (B : SqlBackend σ) (c : SqlConnection σ) :
    (SqlConnection.commit B c).2.calls =
      c.calls ++ [⟨BackendCall.conn_commit, raised (B.commit c.backend_).1⟩] ∧
    (∀ e, (B.commit c.backend_).1 = Except.error e →
      (SqlConnection.commit B c).1 = Except.error e ∧
      (SqlConnection.commit B c).2.bad_ = true) ∧
    (c.bad_ = true → (SqlConnection.commit B c).2.bad_ = true) ∧
    (SqlConnection.commit B c).2.activity_ = false ∧
    (SqlConnection.commit B c).2.cursor_ = c.cursor_ := by
  unfold SqlConnection.commit SqlConnection.invoke
  cases hecho : c.echo_ <;>
  rcases hb : B.commit c.backend_ with ⟨r, b⟩ <;>
  cases r <;> simp [hb, raised, hecho]

/-- `SqlConnection::rollback`: as for `commit`. -/
theorem SqlConnection_rollback_spec {σ : Type} (B : SqlBackend σ) (c : SqlConnection σ) :
    (SqlConnection.rollback B c).2.calls =
      c.calls ++ [⟨BackendCall.conn_rollback, raised (B.rollback c.backend_).1⟩] ∧
    (∀ e, (B.rollback c.backend_).1 = Except.error e →
      (SqlConnection.rollback B c).1 = Except.error e ∧
      (SqlConnection.rollback B c).2.bad_ = true) ∧
    (c.bad_ = true → (SqlConnection.rollback B c).2.bad_ = true) ∧
    (SqlConnection.rollback B c).2.activity_ = false ∧
    (SqlConnection.rollback B c).2.cursor_ = c.cursor_ := by
  unfold SqlConnection.rollback SqlConnection.invoke
  cases hecho : c.echo_ <;>
  rcases hb : B.rollback c.backend_ with ⟨r, b⟩ <;>
  cases r <;> simp [hb, raised, hecho]

/-- The loop of `fetch_rows`: the calls it adds, all of them `fetch_row`; an
exception raised by one of them is the result, with the connection bad. -/
theorem copy_no_more_than_n_spec {σ : Type} (B : SqlBackend σ) (result : SqlResultSet)
    (n : Nat) (rows : Rows) (c : SqlConnection σ) :
    ∃ evs, (copy_no_more_than_n B result n rows c).2.calls = c.calls ++ evs ∧
      (∀ e, (∃ ev ∈ evs, ev.raised = some e) →
        (copy_no_more_than_n B result n rows c).1 = Except.error e ∧
        (copy_no_more_than_n B result n rows c).2.bad_ = true) ∧
      (∀ ev ∈ evs, ev.call = BackendCall.cursor_fetch_row result.cursor_.backend_) ∧
      (c.bad_ = true → (copy_no_more_than_n B result n rows c).2.bad_ = true) ∧
      (copy_no_more_than_n B result n rows c).2.activity_ = c.activity_ ∧
      (copy_no_more_than_n B result n rows c).2.cursor_ = c.cursor_ := by
  induction n generalizing rows c with
  | zero => exact ⟨[], by simp [copy_no_more_than_n]⟩
  | succ n ih =>
    obtain ⟨h1, h2, h3, h4, h5, h6, _⟩ := SqlCursor_fetch_row_spec B result.cursor_ c
    rw [← SqlResultSet_fetch_eq] at h1 h2 h3 h4 h5 h6
    unfold copy_no_more_than_n
    rcases hf : SqlResultSet.fetch B result c with ⟨r, c1⟩
    rw [hf] at h1 h2 h3 h4 h5 h6
    simp only at h1 h2 h3 h4 h5 h6
    rcases r with e | (_ | row)
    · refine ⟨_, h2, ?_, ?_, h4, h5, h6⟩
      · intro e1 ⟨ev, hev, hr⟩
        simp only [List.mem_singleton] at hev
        subst hev
        simp only [← h1, raised, Option.some.injEq] at hr
        subst hr
        exact ⟨rfl, h3 e h1.symm⟩
      · intro ev hev
        simp only [List.mem_singleton] at hev
        subst hev
        rfl
    · refine ⟨_, h2, ?_, ?_, h4, h5, h6⟩
      · intro e1 ⟨ev, hev, hr⟩
        simp only [List.mem_singleton] at hev
        subst hev
        simp [← h1, raised] at hr
      · intro ev hev
        simp only [List.mem_singleton] at hev
        subst hev
        rfl
    · obtain ⟨evs, g1, g2, g3, g4, g5, g6⟩ := ih (rows ++ [row]) c1
      refine ⟨⟨BackendCall.cursor_fetch_row result.cursor_.backend_,
        raised (B.fetch_row result.cursor_.backend_ c.backend_).1⟩ :: evs, ?_, ?_, ?_, ?_, ?_, ?_⟩
      · simp only [g1, h2, List.append_assoc, List.singleton_append]
      · intro e1 ⟨ev, hev, hr⟩
        rcases List.mem_cons.1 hev with hev | hev
        · subst hev
          simp [← h1, raised] at hr
        · exact g2 e1 ⟨ev, hev, hr⟩
      · intro ev hev
        rcases List.mem_cons.1 hev with hev | hev
        · subst hev
          rfl
        · exact g3 ev hev
      · intro hb
        exact g4 (h4 hb)
      · rw [g5, h5]
      · rw [g6, h6]

/-- `SqlCursor::fetch_rows`: the calls it adds are `fetch_row` calls; an
exception raised by one of them is re-raised with the connection marked bad. -/
theorem SqlCursor_fetch_rows_spec {σ : Type} (B : SqlBackend σ) (cursor : SqlCursor)
    (max_rows : Int) (c : SqlConnection σ) :
    ∃ evs, (SqlCursor.fetch_rows B cursor max_rows c).2.calls = c.calls ++ evs ∧
      (∀ e, (∃ ev ∈ evs, ev.raised = some e) →
        (SqlCursor.fetch_rows B cursor max_rows c).1 = Except.error e ∧
        (SqlCursor.fetch_rows B cursor max_rows c).2.bad_ = true) ∧
      (∀ ev ∈ evs, ev.call = BackendCall.cursor_fetch_row cursor.backend_) ∧
      (c.bad_ = true → (SqlCursor.fetch_rows B cursor max_rows c).2.bad_ = true) ∧
      (SqlCursor.fetch_rows B cursor max_rows c).2.activity_ = c.activity_ ∧
      (SqlCursor.fetch_rows B cursor max_rows c).2.cursor_ = c.cursor_ := by
  obtain ⟨evs, g1, g2, g3, g4, g5, g6⟩ :=
    copy_no_more_than_n_spec B ⟨cursor, none⟩ max_rows.toNat [] c
  unfold SqlCursor.fetch_rows
  rcases hc : copy_no_more_than_n B ⟨cursor, none⟩ max_rows.toNat [] c with ⟨r, c1⟩
  rw [hc] at g1 g2 g4 g5 g6
  simp only at g1 g2 g4 g5 g6
  cases r with
  | error e =>
    refine ⟨evs, by simpa using g1, ?_, g3, by simp, by simpa using g5, by simpa using g6⟩
    intro e1 hex
    obtain ⟨he, _⟩ := g2 e1 hex
    exact ⟨he, by simp⟩
  | ok rows => exact ⟨evs, g1, g2, g3, g4, g5, g6⟩

/-- The constructor of `SqlCursor`: one `new_cursor` call, flags untouched. -/
theorem SqlCursor_new_spec {σ : Type} (B : SqlBackend σ) (c : SqlConnection σ) :
    (SqlCursor.new B c).2.calls =
      c.calls ++ [⟨BackendCall.conn_new_cursor, raised (B.new_cursor c.backend_).1⟩] ∧
    (SqlCursor.new B c).2.bad_ = c.bad_ ∧
    (SqlCursor.new B c).2.activity_ = c.activity_ ∧
    (SqlCursor.new B c).2.cursor_ = c.cursor_ := by
  unfold SqlCursor.new SqlConnection.invoke
  rcases hb : B.new_cursor c.backend_ with ⟨r, b⟩
  cases r <;> simp [raised]

/-- The destructor of `SqlCursor`: one `release` call, flags untouched. -/
theorem SqlCursor_destroy_spec {σ : Type} (B : SqlBackend σ) (cursor : SqlCursor)
    (c : SqlConnection σ) :
    (SqlCursor.destroy B cursor c).1 = (B.release cursor.backend_ c.backend_).1 ∧
    (SqlCursor.destroy B cursor c).2.calls =
      c.calls ++ [⟨BackendCall.cursor_release cursor.backend_,
        raised (B.release cursor.backend_ c.backend_).1⟩] ∧
    (SqlCursor.destroy B cursor c).2.bad_ = c.bad_ ∧
    (SqlCursor.destroy B cursor c).2.activity_ = c.activity_ ∧
    (SqlCursor.destroy B cursor c).2.cursor_ = c.cursor_ :=
  ⟨rfl, rfl, rfl, rfl, rfl⟩

/-- `cursor_.reset(NULL)`: releases the cursor held, if any; flags untouched. -/
theorem SqlConnection_reset_cursor_spec {σ : Type} (B : SqlBackend σ) (c : SqlConnection σ) :
    (SqlConnection.reset_cursor B c).2.calls = c.calls ++ reset_events B c ∧
    (SqlConnection.reset_cursor B c).2.bad_ = c.bad_ ∧
    (SqlConnection.reset_cursor B c).2.activity_ = c.activity_ ∧
    (SqlConnection.reset_cursor B c).2.echo_ = c.echo_ ∧
    (SqlConnection.reset_cursor B c).2.log_ = c.log_ ∧
    (∀ u, (SqlConnection.reset_cursor B c).1 = Except.ok u →
      (SqlConnection.reset_cursor B c).2.cursor_ = none) := by
  unfold SqlConnection.reset_cursor reset_events
  cases hcur : c.cursor_ with
  | none => simp [hcur]
  | some old =>
    simp only
    unfold SqlCursor.destroy SqlConnection.invoke
    rcases hb : B.release old.backend_ c.backend_ with ⟨r, b⟩
    cases r <;> simp [raised]

/-- `SqlConnection::clear`: the calls of the reset; an exception marks the
connection bad; `activity_` is untouched. -/
theorem SqlConnection_clear_spec {σ : Type} (B : SqlBackend σ) (c : SqlConnection σ) :
    (SqlConnection.clear B c).1 = (SqlConnection.reset_cursor B c).1 ∧
    (SqlConnection.clear B c).2.calls = c.calls ++ reset_events B c ∧
    (c.bad_ = true → (SqlConnection.clear B c).2.bad_ = true) ∧
    (∀ e, (SqlConnection.clear B c).1 = Except.error e →
      (SqlConnection.clear B c).2.bad_ = true) ∧
    (SqlConnection.clear B c).2.activity_ = c.activity_ := by
  obtain ⟨h1, h2, h3, _⟩ := SqlConnection_reset_cursor_spec B c
  unfold SqlConnection.clear
  rcases hr : SqlConnection.reset_cursor B c with ⟨r, c1⟩
  rw [hr] at h1 h2 h3
  simp only at h1 h2 h3
  cases r <;> simp [h1, h2, h3]

theorem SqlResultSet_own_bad {σ : Type} (B : SqlBackend σ) (rs : SqlResultSet)
    (cursor : SqlCursor) (c : SqlConnection σ) :
    (SqlResultSet.own B rs cursor c).2.bad_ = c.bad_ := by
  unfold SqlResultSet.own
  cases rs.owned_cursor_ with
  | none => rfl
  | some old =>
    simp only
    rcases hd : SqlCursor.destroy B old c with ⟨r, c1⟩
    have hb := (SqlCursor_destroy_spec B old c).2.2.1
    rw [hd] at hb
    cases r <;> simpa using hb

theorem SqlConnection_prepare_bad {σ : Type} (B : SqlBackend σ) (sql : String)
    (c : SqlConnection σ) (h : c.bad_ = true) :
    (SqlConnection.prepare B sql c).2.bad_ = true := by
  unfold SqlConnection.prepare
  rcases hr : SqlConnection.reset_cursor B c with ⟨r, c1⟩
  have h1 := (SqlConnection_reset_cursor_spec B c).2.1
  rw [hr] at h1
  simp only at h1
  cases r with
  | error e => simp
  | ok u =>
    simp only
    rcases hn : SqlCursor.new B c1 with ⟨r2, c2⟩
    have h2 := (SqlCursor_new_spec B c1).2.1
    rw [hn] at h2
    simp only at h2
    cases r2 with
    | error e => simp
    | ok cursor =>
      simp only
      exact (SqlCursor_prepare_spec B cursor sql _).2.2.1 (by simp [h2, h1, h])

theorem SqlConnection_exec_direct_bad {σ : Type} (B : SqlBackend σ) (sql : String)
    (c : SqlConnection σ) (h : c.bad_ = true) :
    (SqlConnection.exec_direct B sql c).2.bad_ = true := by
  unfold SqlConnection.exec_direct
  rcases hn : SqlCursor.new B c with ⟨r, c1⟩
  have h1 := (SqlCursor_new_spec B c).2.1
  rw [hn] at h1
  simp only at h1
  cases r with
  | error e => simp
  | ok cursor =>
    simp only
    rcases he : SqlCursor.exec_direct B cursor sql c1 with ⟨r2, c2⟩
    have h2 := (SqlCursor_exec_direct_spec B cursor sql c1).2.2.1 (by rw [h1, h])
    rw [he] at h2
    simp only at h2
    cases r2 with
    | error e =>
      simp only
      rw [(SqlCursor_destroy_spec B cursor c2).2.2.1]
      exact h2
    | ok rs =>
      simp only
      rw [SqlResultSet_own_bad]
      exact h2

theorem SqlConnection_exec_bad {σ : Type} (B : SqlBackend σ) (params : Values)
    (c : SqlConnection σ) (h : c.bad_ = true) :
    (SqlConnection.exec B params c).2.bad_ = true := by
  unfold SqlConnection.exec YB_ASSERT
  cases c.cursor_ with
  | none => exact h
  | some cursor => exact (SqlCursor_exec_spec B cursor params c).2.2.1 h

theorem SqlConnection_fetch_row_bad {σ : Type} (B : SqlBackend σ)
    (c : SqlConnection σ) (h : c.bad_ = true) :
    (SqlConnection.fetch_row B c).2.bad_ = true := by
  unfold SqlConnection.fetch_row YB_ASSERT
  cases c.cursor_ with
  | none => exact h
  | some cursor => exact (SqlCursor_fetch_row_spec B cursor c).2.2.2.1 h

theorem SqlCursor_fetch_rows_bad {σ : Type} (B : SqlBackend σ) (cursor : SqlCursor)
    (max_rows : Int) (c : SqlConnection σ) (h : c.bad_ = true) :
    (SqlCursor.fetch_rows B cursor max_rows c).2.bad_ = true := by
  obtain ⟨_, _, _, _, g4, _⟩ := SqlCursor_fetch_rows_spec B cursor max_rows c
  exact g4 h

theorem SqlConnection_fetch_rows_bad {σ : Type} (B : SqlBackend σ) (max_rows : Int)
    (c : SqlConnection σ) (h : c.bad_ = true) :
    (SqlConnection.fetch_rows B max_rows c).2.bad_ = true := by
  unfold SqlConnection.fetch_rows YB_ASSERT
  cases c.cursor_ with
  | none => exact h
  | some cursor => exact SqlCursor_fetch_rows_bad B cursor max_rows c h

/-- No operation clears the bad flag. -/
theorem ConnOp_run_bad {σ : Type} (B : SqlBackend σ) (op : ConnOp) (c : SqlConnection σ)
    (h : c.bad_ = true) : (ConnOp.run B op c).bad_ = true := by
  cases op with
  | exec_direct sql => exact SqlConnection_exec_direct_bad B sql c h
  | prepare sql => exact SqlConnection_prepare_bad B sql c h
  | exec params => exact SqlConnection_exec_bad B params c h
  | fetch_row => exact SqlConnection_fetch_row_bad B c h
  | fetch_rows max_rows => exact SqlConnection_fetch_rows_bad B max_rows c h
  | commit => exact (SqlConnection_commit_spec B c).2.2.1 h
  | rollback => exact (SqlConnection_rollback_spec B c).2.2.1 h
  | clear => exact (SqlConnection_clear_spec B c).2.2.1 h
  | mark_bad e => exact mark_bad_bad e c
  | cursor_exec_direct cursor sql => exact (SqlCursor_exec_direct_spec B cursor sql c).2.2.1 h
  | cursor_prepare cursor sql => exact (SqlCursor_prepare_spec B cursor sql c).2.2.1 h
  | cursor_exec cursor params => exact (SqlCursor_exec_spec B cursor params c).2.2.1 h
  | cursor_fetch_row cursor => exact (SqlCursor_fetch_row_spec B cursor c).2.2.2.1 h
  | cursor_fetch_rows cursor max_rows => exact SqlCursor_fetch_rows_bad B cursor max_rows c h

theorem ConnOp_run_all_bad {σ : Type} (B : SqlBackend σ) (ops : List ConnOp)
    (c : SqlConnection σ) (h : c.bad_ = true) : (ConnOp.run_all B ops c).bad_ = true := by
  induction ops generalizing c with
  | nil => exact h
  | cons op rest ih => exact ih (ConnOp.run B op c) (ConnOp_run_bad B op c h)

/-- A connection the constructor returns has all flags cleared and no cursor. -/
theorem new_from_source_flags {σ : Type} (B : SqlBackend σ) (YB_USE_QT : Bool)
    (D : SqlDriver σ) (regs regs1 : Registries σ) (source : SqlSource) (c : SqlConnection σ)
    (h : SqlConnection.new_from_source B YB_USE_QT D regs source = (Except.ok c, regs1)) :
    c.bad_ = false ∧ c.activity_ = false ∧ c.cursor_ = none := by
  unfold SqlConnection.new_from_source at h
  rcases hd : sql_driver YB_USE_QT D regs.drivers source.get_driver_name with ⟨r1, d1⟩
  rw [hd] at h
  cases r1 with
  | error e => simp at h
  | ok driver =>
    simp only at h
    rcases hl : sql_dialect regs.dialects source.get_dialect_name with ⟨r2, d2⟩
    rw [hl] at h
    cases r2 with
    | error e => simp at h
    | ok dialect =>
      simp only [SqlConnection.invoke] at h
      rcases ho : B.open_ dialect source driver.create_backend with ⟨r3, b3⟩
      rw [ho] at h
      cases r3 with
      | error e => simp at h
      | ok u =>
        simp only [Prod.mk.injEq, Except.ok.injEq] at h
        obtain ⟨hc, _⟩ := h
        subst hc
        exact ⟨rfl, rfl, rfl⟩

/-- The constructor, run on the registries of a fresh process with the backend
`RowsBackend`, returns `fresh_connection`. -/
theorem fresh_connection_eq (rows : List Row) :
    SqlConnection.new RowsBackend false (RowsDriver rows) ⟨[], []⟩
        "" "ORACLE" "db" "user" "passwd" =
      (Except.ok (fresh_connection rows),
        ⟨[("ODBC", RowsDriver rows)], register_std_dialects []⟩) := by
  rfl

/-- `SqlConnection::prepare` re-raises what the release of the old cursor, the
creation of the new one or the backend `prepare` raised, with `bad_` set. -/
theorem SqlConnection_prepare_reraised {σ : Type} (B : SqlBackend σ) (sql : String)
    (c : SqlConnection σ) : ReraisedAndPoisoned c (SqlConnection.prepare B sql c) := by
  intro e
  unfold SqlConnection.prepare SqlConnection.reset_cursor SqlCursor.destroy SqlCursor.new
    SqlCursor.prepare SqlConnection.invoke new_events
  cases hcur : c.cursor_ with
  | none =>
    simp only
    rcases hn : B.new_cursor c.backend_ with ⟨r2, b2⟩
    cases r2 with
    | error e2 => simp [raised]
    | ok h =>
      simp only
      cases hecho : c.echo_ <;>
      rcases hp : B.prepare h sql b2 with ⟨r3, b3⟩ <;>
      cases r3 <;> simp [raised, hp]
  | some old =>
    simp only
    rcases hrel : B.release old.backend_ c.backend_ with ⟨r1, b1⟩
    cases r1 with
    | error e1 => simp [raised]
    | ok u =>
      simp only
      rcases hn : B.new_cursor b1 with ⟨r2, b2⟩
      cases r2 with
      | error e2 => simp [raised]
      | ok h =>
        simp only
        cases hecho : c.echo_ <;>
        rcases hp : B.prepare h sql b2 with ⟨r3, b3⟩ <;>
        cases r3 <;> simp [raised, hp]

/-- A call that made no backend call re-raises and poisons vacuously. -/
theorem reraised_of_no_call {σ α : Type} (c : SqlConnection σ) (r : Except Exn α) :
    ReraisedAndPoisoned c (r, c) := by
  intro e ⟨ev, hev, _⟩
  simp [new_events] at hev

/-- `SqlConnection::exec_direct` re-raises what the creation of the transient
cursor or the backend `exec_direct` raised, with `bad_` set. -/
theorem SqlConnection_exec_direct_reraised {σ : Type} (B : SqlBackend σ) (sql : String)
    (c : SqlConnection σ) :
    (∀ e, (B.new_cursor c.backend_).1 = Except.error e →
      (SqlConnection.exec_direct B sql c).1 = Except.error e ∧
      (SqlConnection.exec_direct B sql c).2.bad_ = true) ∧
    (∀ h e, (B.new_cursor c.backend_).1 = Except.ok h →
      (B.exec_direct h sql (B.new_cursor c.backend_).2).1 = Except.error e →
      (SqlConnection.exec_direct B sql c).1 = Except.error e ∧
      (SqlConnection.exec_direct B sql c).2.bad_ = true) := by
  unfold SqlConnection.exec_direct SqlCursor.new SqlCursor.exec_direct SqlCursor.destroy
    SqlConnection.invoke
  rcases hn : B.new_cursor c.backend_ with ⟨r1, b1⟩
  cases r1 with
  | error e1 => simp
  | ok h =>
    simp only
    cases hecho : c.echo_ <;>
    rcases hx : B.exec_direct h sql b1 with ⟨r2, b2⟩ <;>
    cases r2 <;> simp [hx] <;> intro h1 e hh he <;> subst hh <;> rw [hx] at he <;>
    simp_all

/-! ## Connection and cursor: the properties -/

/-- C6: for every parameter list, `SqlConnection::exec(params)` on a
connection that holds no prepared cursor throws the assertion failure, a
`UsageError` (`no prepared statement`), leaves the connection as it was and
makes no backend call. -/
theorem exec_without_prepared_cursor {σ : Type} (B : SqlBackend σ) (params : Values)
    (c : SqlConnection σ) (h : c.cursor_ = none) :
    SqlConnection.exec B params c =
      (Except.error ⟨ErrorKind.UsageError, "no prepared statement"⟩, c) ∧
    new_calls c (SqlConnection.exec B params c).2 = [] := by
  have he : SqlConnection.exec B params c =
      (Except.error ⟨ErrorKind.UsageError, "no prepared statement"⟩, c) := by
    unfold SqlConnection.exec YB_ASSERT
    rw [h]
  rw [he]
  exact ⟨rfl, new_calls_of_append c c [] (by simp)⟩

/-- C6 at a connection fresh from the constructor, with two parameters. -/
theorem exec_without_prepared_cursor_witness :
    (fresh_connection []).cursor_ = none ∧
    (SqlConnection.exec RowsBackend [⟨ValueType.INTEGER, "1"⟩, ⟨ValueType.STRING, "'a'"⟩]
        (fresh_connection [])).1 =
      Except.error ⟨ErrorKind.UsageError, "no prepared statement"⟩ ∧
    new_calls (fresh_connection [])
      (SqlConnection.exec RowsBackend [⟨ValueType.INTEGER, "1"⟩, ⟨ValueType.STRING, "'a'"⟩]
        (fresh_connection [])).2 = [] :=
  ⟨rfl,
    congrArg Prod.fst (exec_without_prepared_cursor RowsBackend
      [⟨ValueType.INTEGER, "1"⟩, ⟨ValueType.STRING, "'a'"⟩] (fresh_connection []) rfl).1,
    (exec_without_prepared_cursor RowsBackend
      [⟨ValueType.INTEGER, "1"⟩, ⟨ValueType.STRING, "'a'"⟩] (fresh_connection []) rfl).2⟩

/-- C7: whenever the backend raises an exception during `exec_direct`,
`prepare`, `exec`, `fetch_row` or `fetch_rows` of a cursor, during `commit` or
`rollback` of the connection, or during the `prepare`, `exec`, `fetch_row`,
`fetch_rows` and `exec_direct` of the connection that go through a cursor, the
call throws that same exception and the connection it leaves has `bad_` set. -/
theorem backend_error_poisons_and_propagates {σ : Type} (B : SqlBackend σ)
    (cursor : SqlCursor) (sql : String) (params : Values) (max_rows : Int)
    (c : SqlConnection σ) :
    ReraisedAndPoisoned c (SqlCursor.exec_direct B cursor sql c) ∧
    ReraisedAndPoisoned c (SqlCursor.prepare B cursor sql c) ∧
    ReraisedAndPoisoned c (SqlCursor.exec B cursor params c) ∧
    ReraisedAndPoisoned c (SqlCursor.fetch_row B cursor c) ∧
    ReraisedAndPoisoned c (SqlCursor.fetch_rows B cursor max_rows c) ∧
    ReraisedAndPoisoned c (SqlConnection.commit B c) ∧
    ReraisedAndPoisoned c (SqlConnection.rollback B c) ∧
    ReraisedAndPoisoned c (SqlConnection.prepare B sql c) ∧
    ReraisedAndPoisoned c (SqlConnection.exec B params c) ∧
    ReraisedAndPoisoned c (SqlConnection.fetch_row B c) ∧
    ReraisedAndPoisoned c (SqlConnection.fetch_rows B max_rows c) ∧
    (∀ e, (B.new_cursor c.backend_).1 = Except.error e →
      (SqlConnection.exec_direct B sql c).1 = Except.error e ∧
      (SqlConnection.exec_direct B sql c).2.bad_ = true) ∧
    (∀ h e, (B.new_cursor c.backend_).1 = Except.ok h →
      (B.exec_direct h sql (B.new_cursor c.backend_).2).1 = Except.error e →
      (SqlConnection.exec_direct B sql c).1 = Except.error e ∧
      (SqlConnection.exec_direct B sql c).2.bad_ = true) := by
  have hrows : ∀ cur : SqlCursor, ReraisedAndPoisoned c (SqlCursor.fetch_rows B cur max_rows c) := by
    intro cur
    obtain ⟨evs, g1, g2, _⟩ := SqlCursor_fetch_rows_spec B cur max_rows c
    intro e hex
    rw [new_events_of_append c _ evs g1] at hex
    exact g2 e hex
  have hrow : ∀ cur : SqlCursor, ReraisedAndPoisoned c (SqlCursor.fetch_row B cur c) := by
    intro cur
    obtain ⟨h0, h1, h2, _⟩ := SqlCursor_fetch_row_spec B cur c
    refine reraised_of_single c _ _ _ h1 ?_
    intro e he
    exact ⟨by rw [h0, he], h2 e he⟩
  have hexec : ∀ cur : SqlCursor, ReraisedAndPoisoned c (SqlCursor.exec B cur params c) := by
    intro cur
    obtain ⟨h1, h2, _⟩ := SqlCursor_exec_spec B cur params c
    exact reraised_of_single c _ _ _ h1 h2
  refine ⟨?_, ?_, ?_, ?_, ?_, ?_, ?_, ?_, ?_, ?_, ?_,
    (SqlConnection_exec_direct_reraised B sql c).1,
    (SqlConnection_exec_direct_reraised B sql c).2⟩
  · obtain ⟨h1, h2, _⟩ := SqlCursor_exec_direct_spec B cursor sql c
    exact reraised_of_single c _ _ _ h1 h2
  · obtain ⟨h1, h2, _⟩ := SqlCursor_prepare_spec B cursor sql c
    exact reraised_of_single c _ _ _ h1 h2
  · exact hexec cursor
  · exact hrow cursor
  · exact hrows cursor
  · obtain ⟨h1, h2, _⟩ := SqlConnection_commit_spec B c
    exact reraised_of_single c _ _ _ h1 h2
  · obtain ⟨h1, h2, _⟩ := SqlConnection_rollback_spec B c
    exact reraised_of_single c _ _ _ h1 h2
  · exact SqlConnection_prepare_reraised B sql c
  · unfold SqlConnection.exec YB_ASSERT
    cases c.cursor_ with
    | none => exact reraised_of_no_call c _
    | some cur => exact hexec cur
  · unfold SqlConnection.fetch_row YB_ASSERT
    cases c.cursor_ with
    | none => exact reraised_of_no_call c _
    | some cur => exact hrow cur
  · unfold SqlConnection.fetch_rows YB_ASSERT
    cases c.cursor_ with
    | none => exact reraised_of_no_call c _
    | some cur => exact hrows cur

/-- C7 at a backend that loses its link: the commit of a fresh connection
throws the exception of the backend and leaves the connection bad, and so
does `fetch_rows` at its first fetch. -/
theorem backend_error_poisons_and_propagates_witness :
    ((SqlConnection.commit (FailingBackend lost_link) (fresh_connection [])).1 =
        Except.error lost_link ∧
      (SqlConnection.commit (FailingBackend lost_link) (fresh_connection [])).2.bad_ = true) ∧
    ((SqlCursor.fetch_rows (FailingBackend lost_link) ⟨1, false, none⟩ 5
        (fresh_connection [])).1 = Except.error lost_link ∧
      (SqlCursor.fetch_rows (FailingBackend lost_link) ⟨1, false, none⟩ 5
        (fresh_connection [])).2.bad_ = true) :=
  ⟨(backend_error_poisons_and_propagates (FailingBackend lost_link) ⟨1, false, none⟩
      "select 1" [] 5 (fresh_connection [])).2.2.2.2.2.1 lost_link
      ⟨⟨BackendCall.conn_commit, some lost_link⟩, List.mem_singleton.2 rfl, rfl⟩,
    (backend_error_poisons_and_propagates (FailingBackend lost_link) ⟨1, false, none⟩
      "select 1" [] 5 (fresh_connection [])).2.2.2.2.1 lost_link
      ⟨⟨BackendCall.cursor_fetch_row 1, some lost_link⟩, List.mem_singleton.2 rfl, rfl⟩⟩

/-- C8: the bad flag is absorbing. A connection the constructor returns has
`bad_` cleared; once `bad_` is set it is set after every sequence of
`exec_direct`, `prepare`, `exec`, `fetch_row`, `fetch_rows`, `commit`,
`rollback`, `clear`, `mark_bad` and of the member functions of a cursor bound
to the connection; and `mark_bad` on a bad connection changes nothing, the
log included, so that marking twice is marking once. -/
theorem bad_flag_absorbing {σ : Type} (B : SqlBackend σ) :
    (∀ YB_USE_QT D regs regs1 source c,
      SqlConnection.new_from_source B YB_USE_QT D regs source = (Except.ok c, regs1) →
        c.bad_ = false) ∧
    (∀ YB_USE_QT D regs regs1 driver_name dialect_name db user passwd c,
      SqlConnection.new B YB_USE_QT D regs driver_name dialect_name db user passwd =
        (Except.ok c, regs1) → c.bad_ = false) ∧
    (∀ (ops : List ConnOp) (c : SqlConnection σ), c.bad_ = true →
      (ConnOp.run_all B ops c).bad_ = true) ∧
    (∀ (e : Exn) (c : SqlConnection σ), c.bad_ = true → SqlConnection.mark_bad e c = c) ∧
    (∀ (e1 e2 : Exn) (c : SqlConnection σ),
      SqlConnection.mark_bad e2 (SqlConnection.mark_bad e1 c) = SqlConnection.mark_bad e1 c) := by
  refine ⟨?_, ?_, ?_, ?_, ?_⟩
  · intro qt D regs regs1 source c h
    exact (new_from_source_flags B qt D regs regs1 source c h).1
  · intro qt D regs regs1 driver_name dialect_name db user passwd c h
    exact (new_from_source_flags B qt D regs regs1 _ c h).1
  · intro ops c h
    exact ConnOp_run_all_bad B ops c h
  · intro e c h
    exact mark_bad_of_bad e c h
  · intro e1 e2 c
    exact mark_bad_of_bad e2 _ (mark_bad_bad e1 c)

/-- C8 at a connection with a logger, on a backend that loses its link: it
starts good, the failed commit marks it bad with one log line, and it is
still bad, with that one log line, after a second failed commit, a prepare,
a fetch and a rollback. -/
theorem bad_flag_absorbing_witness :
    (fresh_connection []).bad_ = false ∧
    (ConnOp.run (FailingBackend lost_link) ConnOp.commit
      { fresh_connection [] with log_ := some 7 }).bad_ = true ∧
    (ConnOp.run_all (FailingBackend lost_link)
      [ConnOp.commit, ConnOp.prepare "select 1", ConnOp.fetch_row, ConnOp.rollback]
      (ConnOp.run (FailingBackend lost_link) ConnOp.commit
        { fresh_connection [] with log_ := some 7 })).bad_ = true ∧
    (ConnOp.run_all (FailingBackend lost_link)
      [ConnOp.commit, ConnOp.prepare "select 1", ConnOp.fetch_row, ConnOp.rollback]
      (ConnOp.run (FailingBackend lost_link) ConnOp.commit
        { fresh_connection [] with log_ := some 7 })).debug_log.length = 1 :=
  ⟨(bad_flag_absorbing RowsBackend).2.1 false (RowsDriver []) ⟨[], []⟩ _
      "" "ORACLE" "db" "user" "passwd" (fresh_connection []) (fresh_connection_eq []),
    rfl,
    (bad_flag_absorbing (FailingBackend lost_link)).2.2.1 _ _ rfl,
    rfl⟩

/-! ## Teardown -/

/-- The calls of the first `try` block of the destructor. -/
theorem destroy_release_calls {σ : Type} (B : SqlBackend σ) (c : SqlConnection σ) :
    ∃ evs, (SqlConnection.destroy_release B c).2.calls = c.calls ++ evs ∧
      evs.map BackendEvent.call =
        release_calls c ++
        (if raised (SqlConnection.clear B c).1 = none ∧ c.activity_ = true
          then [BackendCall.conn_rollback] else []) := by
  obtain ⟨_, h2, _, _, h5⟩ := SqlConnection_clear_spec B c
  have hrel : (reset_events B c).map BackendEvent.call = release_calls c := by
    unfold reset_events release_calls
    cases c.cursor_ <;> rfl
  unfold SqlConnection.destroy_release
  rcases hc : SqlConnection.clear B c with ⟨r, c1⟩
  rw [hc] at h2 h5
  simp only at h2 h5
  cases r with
  | error e => exact ⟨reset_events B c, h2, by simp [hrel, raised]⟩
  | ok u =>
    simp only
    cases hact : c.activity_ with
    | false =>
      rw [hact] at h5
      simp only [h5]
      exact ⟨reset_events B c, h2, by simp [hrel]⟩
    | true =>
      rw [hact] at h5
      simp only [h5, if_true]
      obtain ⟨g1, _⟩ := SqlConnection_rollback_spec B c1
      exact ⟨reset_events B c ++ [⟨BackendCall.conn_rollback, raised (B.rollback c1.backend_).1⟩],
        by rw [g1, h2, List.append_assoc], by simp [hrel, raised]⟩

/-- The destructor ends with the one call of the backend `close`. -/
theorem destroy_calls {σ : Type} (B : SqlBackend σ) (c : SqlConnection σ) :
    (SqlConnection.destroy B c).2.calls =
      (SqlConnection.destroy_release B c).2.calls ++
        [⟨BackendCall.conn_close,
          raised (B.close (SqlConnection.destroy_release B c).2.backend_).1⟩] := by
  unfold SqlConnection.destroy
  simp only
  split <;> simp

/-- The backend calls of the destructor: the release of the prepared cursor
if there is one, a rollback if that did not throw and `activity_` is set, and
the close. -/
theorem destroy_new_calls {σ : Type} (B : SqlBackend σ) (c : SqlConnection σ) :
    new_calls c (SqlConnection.destroy B c).2 =
      release_calls c ++
      (if raised (SqlConnection.clear B c).1 = none ∧ c.activity_ = true
        then [BackendCall.conn_rollback] else []) ++
      [BackendCall.conn_close] := by
  obtain ⟨evs, h1, h2⟩ := destroy_release_calls B c
  have h := destroy_calls B c
  rw [h1, List.append_assoc] at h
  rw [new_calls_of_append c _ _ h, List.map_append, h2]
  rfl

theorem release_calls_count {σ : Type} (c : SqlConnection σ) :
    (release_calls c).count BackendCall.conn_rollback = 0 ∧
    (release_calls c).count BackendCall.conn_commit = 0 ∧
    (release_calls c).count BackendCall.conn_close = 0 ∧
    BackendCall.conn_close ∉ release_calls c := by
  unfold release_calls
  cases c.cursor_ <;> simp

/-- C9, as stated, fails: on a backend whose cursor destruction throws, a
connection that has prepared a statement (so `activity_` is set and a cursor
is held) is torn down without any call of the backend rollback. -/
theorem teardown_skips_rollback_when_release_throws :
    ¬ TeardownRollsBack (ReleaseFailsBackend lost_link)
      (SqlConnection.prepare (ReleaseFailsBackend lost_link) "update t set a = 1"
        (fresh_connection [])).2 := by
  intro h
  have h1 := (h.1 rfl).1
  have h0 : (new_calls
      (SqlConnection.prepare (ReleaseFailsBackend lost_link) "update t set a = 1"
        (fresh_connection [])).2
      (SqlConnection.destroy (ReleaseFailsBackend lost_link)
        (SqlConnection.prepare (ReleaseFailsBackend lost_link) "update t set a = 1"
          (fresh_connection [])).2).2).count BackendCall.conn_rollback = 0 := by
    decide
  rw [h0] at h1
  exact absurd h1 (by decide)

/-- C9, amended: when the release of the prepared cursor does not throw (in
particular when no cursor is held) and `activity_` is set, the teardown calls
the backend rollback exactly once, never the commit, and the rollback before
the close; when `activity_` is not set no rollback is called, whatever the
release does. -/
theorem teardown_rolls_back_when_release_succeeds {σ : Type} (B : SqlBackend σ)
    (c : SqlConnection σ) :
    ((SqlConnection.clear B c).1 = Except.ok () → TeardownRollsBack B c) ∧
    (c.activity_ = false →
      (new_calls c (SqlConnection.destroy B c).2).count BackendCall.conn_rollback = 0) := by
  obtain ⟨k1, k2, k3, k4⟩ := release_calls_count c
  have hfalse : c.activity_ = false →
      (new_calls c (SqlConnection.destroy B c).2).count BackendCall.conn_rollback = 0 := by
    intro hact
    rw [destroy_new_calls]
    simp [hact, k1]
  refine ⟨?_, hfalse⟩
  intro hok
  refine ⟨?_, hfalse⟩
  intro hact
  have hr : raised (SqlConnection.clear B c).1 = none := by
    rw [hok]
    rfl
  rw [destroy_new_calls]
  simp only [hr, hact, and_self, if_true]
  refine ⟨by simp [k1], by simp [k2], release_calls c, [BackendCall.conn_close], ?_, ?_, k4⟩
  · simp
  · simp

/-- C9, amended, at a connection that prepared a statement on a backend where
nothing fails: the teardown releases the cursor, rolls back once, and closes. -/
theorem teardown_rolls_back_when_release_succeeds_witness :
    (SqlConnection.clear RowsBackend
      (SqlConnection.prepare RowsBackend "update t set a = 1" (fresh_connection [])).2).1 =
        Except.ok () ∧
    (SqlConnection.prepare RowsBackend "update t set a = 1" (fresh_connection [])).2.activity_ =
      true ∧
    (new_calls (SqlConnection.prepare RowsBackend "update t set a = 1" (fresh_connection [])).2
      (SqlConnection.destroy RowsBackend
        (SqlConnection.prepare RowsBackend "update t set a = 1"
          (fresh_connection [])).2).2).count BackendCall.conn_rollback = 1 :=
  ⟨rfl, rfl,
    (((teardown_rolls_back_when_release_succeeds RowsBackend
      (SqlConnection.prepare RowsBackend "update t set a = 1" (fresh_connection [])).2).1
        rfl).1 rfl).1⟩

/-- C10: the destructor never lets an exception out, whichever of the cursor
release, the implicit rollback and the backend close throw, and on every path
it calls the backend `close` exactly once, as its last backend call. -/
theorem teardown_never_throws {σ : Type} (B : SqlBackend σ) (c : SqlConnection σ) :
    (SqlConnection.destroy B c).1 = Except.ok () ∧
    (new_calls c (SqlConnection.destroy B c).2).count BackendCall.conn_close = 1 ∧
    (new_calls c (SqlConnection.destroy B c).2).getLast? = some BackendCall.conn_close := by
  obtain ⟨_, _, k3, _⟩ := release_calls_count c
  refine ⟨rfl, ?_, ?_⟩
  · rw [destroy_new_calls]
    by_cases h : raised (SqlConnection.clear B c).1 = none ∧ c.activity_ = true
    · simp [h, k3]
    · simp [h, k3]
  · rw [destroy_new_calls]
    simp

/-- C10 at a backend on which the cursor release, the rollback and the close
all throw: the destructor returns, having called `close` once. -/
theorem teardown_never_throws_witness :
    (SqlConnection.destroy (FailingBackend lost_link)
      (SqlConnection.prepare RowsBackend "update t set a = 1" (fresh_connection [])).2).1 =
        Except.ok () ∧
    new_calls (SqlConnection.prepare RowsBackend "update t set a = 1" (fresh_connection [])).2
      (SqlConnection.destroy (FailingBackend lost_link)
        (SqlConnection.prepare RowsBackend "update t set a = 1" (fresh_connection [])).2).2 =
      [BackendCall.cursor_release 1, BackendCall.conn_close] ∧
    (new_calls (SqlConnection.exec_direct RowsBackend "update t set a = 1"
        (fresh_connection [])).2
      (SqlConnection.destroy (FailingBackend lost_link)
        (SqlConnection.exec_direct RowsBackend "update t set a = 1"
          (fresh_connection [])).2).2).count BackendCall.conn_close = 1 :=
  ⟨(teardown_never_throws (FailingBackend lost_link) _).1, rfl,
    (teardown_never_throws (FailingBackend lost_link) _).2.1⟩

/-! ## Statement cursors: lemmas -/

/-- The constructor, run on the registries of a fresh process with the
counting backend, returns `counting_connection`. -/
theorem counting_connection_eq :
    SqlConnection.new CountingBackend false OdbcLikeDriver ⟨[], []⟩
        "" "ORACLE" "db" "user" "passwd" =
      (Except.ok counting_connection,
        ⟨[("ODBC", OdbcLikeDriver)], register_std_dialects []⟩) := by
  rfl

/-- `SqlConnection::exec_direct` never touches `cursor_`; a result set it
returns reads from, and owns, the cursor made for the call, and the backend
calls of a successful call are the creation of that cursor and the
`exec_direct` on it. -/
theorem SqlConnection_exec_direct_shape {σ : Type} (B : SqlBackend σ) (sql : String)
    (c : SqlConnection σ) :
    (SqlConnection.exec_direct B sql c).2.cursor_ = c.cursor_ ∧
    (∀ rs, (SqlConnection.exec_direct B sql c).1 = Except.ok rs →
      rs.owned_cursor_ = some rs.cursor_ ∧
      (B.new_cursor c.backend_).1 = Except.ok rs.cursor_.backend_ ∧
      new_calls c (SqlConnection.exec_direct B sql c).2 =
        [BackendCall.conn_new_cursor,
          BackendCall.cursor_exec_direct rs.cursor_.backend_ sql]) := by
  unfold SqlConnection.exec_direct SqlCursor.new SqlCursor.exec_direct SqlCursor.destroy
    SqlResultSet.own SqlConnection.invoke new_calls new_events
  rcases hn : B.new_cursor c.backend_ with ⟨r1, b1⟩
  cases r1 with
  | error e1 => simp
  | ok h =>
    simp only
    cases hecho : c.echo_ <;>
    rcases hx : B.exec_direct h sql b1 with ⟨r2, b2⟩ <;>
    cases r2 <;> simp [hx]

/-- The backend calls of `SqlConnection::prepare`: the release of the cursor
held, then at most the creation of a cursor and the `prepare` on it; all three
when the call returns, and then `cursor_` is the cursor created. -/
theorem SqlConnection_prepare_calls {σ : Type} (B : SqlBackend σ) (sql : String)
    (c : SqlConnection σ) :
    (∃ rest, new_calls c (SqlConnection.prepare B sql c).2 = release_calls c ++ rest ∧
      (rest = [] ∨ rest = [BackendCall.conn_new_cursor] ∨
        ∃ h, rest = [BackendCall.conn_new_cursor, BackendCall.cursor_prepare h sql])) ∧
    (∀ u, (SqlConnection.prepare B sql c).1 = Except.ok u →
      ∃ cur, (SqlConnection.prepare B sql c).2.cursor_ = some cur ∧
        (B.new_cursor (SqlConnection.reset_cursor B c).2.backend_).1 =
          Except.ok cur.backend_ ∧
        new_calls c (SqlConnection.prepare B sql c).2 =
          release_calls c ++
            [BackendCall.conn_new_cursor, BackendCall.cursor_prepare cur.backend_ sql]) := by
  unfold SqlConnection.prepare SqlConnection.reset_cursor SqlCursor.destroy SqlCursor.new
    SqlCursor.prepare SqlConnection.invoke new_calls new_events release_calls
  cases hcur : c.cursor_ with
  | none =>
    simp only
    rcases hn : B.new_cursor c.backend_ with ⟨r2, b2⟩
    cases r2 with
    | error e2 => simp
    | ok h =>
      simp only
      cases hecho : c.echo_ <;>
      rcases hp : B.prepare h sql b2 with ⟨r3, b3⟩ <;>
      cases r3 <;> simp [hp]
  | some old =>
    simp only
    rcases hrel : B.release old.backend_ c.backend_ with ⟨r1, b1⟩
    cases r1 with
    | error e1 => simp
    | ok u =>
      simp only
      rcases hn : B.new_cursor b1 with ⟨r2, b2⟩
      cases r2 with
      | error e2 => simp
      | ok h =>
        simp only
        cases hecho : c.echo_ <;>
        rcases hp : B.prepare h sql b2 with ⟨r3, b3⟩ <;>
        cases r3 <;> simp [hp]

/-! ## Statement cursors: the properties -/

/-- C11, as stated, fails: on the counting backend a connection that has
prepared a statement still holds that cursor after `exec_direct`. -/
theorem exec_direct_does_not_discard_prepared :
    ¬ ExecDirectDiscardsPrepared CountingBackend "delete from t"
      (SqlConnection.prepare CountingBackend "select a from t" counting_connection).2 := by
  intro h
  have h1 := (h (by decide)).1
  revert h1
  decide

/-- C11, amended: `SqlConnection::exec_direct(sql)` leaves the prepared cursor
of the connection in place, so that a following `exec(params)` without a new
`prepare` is the `exec` of that prepared cursor and goes to the backend; the
statement runs on a cursor created for the call, which the returned result set
reads from and owns. -/
theorem exec_direct_keeps_prepared_cursor {σ : Type} (B : SqlBackend σ) (sql : String)
    (c : SqlConnection σ) :
    (SqlConnection.exec_direct B sql c).2.cursor_ = c.cursor_ ∧
    (∀ p params, c.cursor_ = some p →
      SqlConnection.exec B params (SqlConnection.exec_direct B sql c).2 =
        SqlCursor.exec B p params (SqlConnection.exec_direct B sql c).2 ∧
      new_calls (SqlConnection.exec_direct B sql c).2
        (SqlConnection.exec B params (SqlConnection.exec_direct B sql c).2).2 =
          [BackendCall.cursor_exec p.backend_ params]) ∧
    (∀ rs, (SqlConnection.exec_direct B sql c).1 = Except.ok rs →
      rs.owned_cursor_ = some rs.cursor_ ∧
      (B.new_cursor c.backend_).1 = Except.ok rs.cursor_.backend_ ∧
      new_calls c (SqlConnection.exec_direct B sql c).2 =
        [BackendCall.conn_new_cursor,
          BackendCall.cursor_exec_direct rs.cursor_.backend_ sql]) := by
  obtain ⟨h1, h2⟩ := SqlConnection_exec_direct_shape B sql c
  refine ⟨h1, ?_, h2⟩
  intro p params hp
  have he : SqlConnection.exec B params (SqlConnection.exec_direct B sql c).2 =
      SqlCursor.exec B p params (SqlConnection.exec_direct B sql c).2 := by
    unfold SqlConnection.exec YB_ASSERT
    rw [h1, hp]
  rw [he]
  exact ⟨rfl, new_calls_of_append _ _ _ (SqlCursor_exec_spec B p params _).1⟩

/-- C11, amended, on the counting backend: after `prepare` and `exec_direct`
the connection still holds the prepared cursor, of handle 0, the result set
owns the cursor of handle 1, and a following `exec` returns. -/
theorem exec_direct_keeps_prepared_cursor_witness :
    (SqlConnection.exec_direct CountingBackend "delete from t"
      (SqlConnection.prepare CountingBackend "select a from t" counting_connection).2).2.cursor_ =
        some ⟨0, false, none⟩ ∧
    (SqlConnection.exec_direct CountingBackend "delete from t"
      (SqlConnection.prepare CountingBackend "select a from t" counting_connection).2).1 =
        Except.ok ⟨⟨1, false, none⟩, some ⟨1, false, none⟩⟩ ∧
    new_calls
      (SqlConnection.exec_direct CountingBackend "delete from t"
        (SqlConnection.prepare CountingBackend "select a from t" counting_connection).2).2
      (SqlConnection.exec CountingBackend []
        (SqlConnection.exec_direct CountingBackend "delete from t"
          (SqlConnection.prepare CountingBackend "select a from t"
            counting_connection).2).2).2 = [BackendCall.cursor_exec 0 []] :=
  ⟨(exec_direct_keeps_prepared_cursor CountingBackend "delete from t"
      (SqlConnection.prepare CountingBackend "select a from t" counting_connection).2).1,
    rfl,
    ((exec_direct_keeps_prepared_cursor CountingBackend "delete from t"
      (SqlConnection.prepare CountingBackend "select a from t" counting_connection).2).2.1
        ⟨0, false, none⟩ [] rfl).2⟩

/-- C12: a `prepare` that returns leaves the connection holding the cursor it
created; and for every two consecutive `prepare` calls of which the first left
a cursor, the second call first releases that cursor and only then may create
one, so the connection never holds two; when the second call returns,
`cursor_` is the cursor created in it, and its backend calls were the release,
the creation and the `prepare` of the second statement on the new cursor, with
no execution. -/
theorem prepare_twice_releases_first {σ : Type} (B : SqlBackend σ) (sql1 sql2 : String)
    (c0 : SqlConnection σ) :
    ((SqlConnection.prepare B sql1 c0).1 = Except.ok () →
      ∃ cur1, (SqlConnection.prepare B sql1 c0).2.cursor_ = some cur1) ∧
    (∀ cur1, (SqlConnection.prepare B sql1 c0).2.cursor_ = some cur1 →
      (∃ rest,
        new_calls (SqlConnection.prepare B sql1 c0).2
          (SqlConnection.prepare B sql2 (SqlConnection.prepare B sql1 c0).2).2 =
            BackendCall.cursor_release cur1.backend_ :: rest ∧
        (rest = [] ∨ rest = [BackendCall.conn_new_cursor] ∨
          ∃ h, rest = [BackendCall.conn_new_cursor, BackendCall.cursor_prepare h sql2])) ∧
      ((SqlConnection.prepare B sql2 (SqlConnection.prepare B sql1 c0).2).1 = Except.ok () →
        ∃ cur2,
          (SqlConnection.prepare B sql2 (SqlConnection.prepare B sql1 c0).2).2.cursor_ =
            some cur2 ∧
          (B.new_cursor (B.release cur1.backend_
            (SqlConnection.prepare B sql1 c0).2.backend_).2).1 = Except.ok cur2.backend_ ∧
          new_calls (SqlConnection.prepare B sql1 c0).2
            (SqlConnection.prepare B sql2 (SqlConnection.prepare B sql1 c0).2).2 =
              [BackendCall.cursor_release cur1.backend_, BackendCall.conn_new_cursor,
                BackendCall.cursor_prepare cur2.backend_ sql2])) := by
  constructor
  · intro h1
    obtain ⟨cur1, hc1, _, _⟩ := (SqlConnection_prepare_calls B sql1 c0).2 () h1
    exact ⟨cur1, hc1⟩
  · intro cur1 hc1
    obtain ⟨⟨rest, hr, hshape⟩, hok⟩ :=
      SqlConnection_prepare_calls B sql2 (SqlConnection.prepare B sql1 c0).2
    have hrel : release_calls (SqlConnection.prepare B sql1 c0).2 =
        [BackendCall.cursor_release cur1.backend_] := by
      unfold release_calls
      rw [hc1]
    have hreset :
        (SqlConnection.reset_cursor B (SqlConnection.prepare B sql1 c0).2).2.backend_ =
          (B.release cur1.backend_ (SqlConnection.prepare B sql1 c0).2.backend_).2 := by
      unfold SqlConnection.reset_cursor SqlCursor.destroy SqlConnection.invoke
      rw [hc1]
      simp only
      rcases hb : B.release cur1.backend_ (SqlConnection.prepare B sql1 c0).2.backend_
        with ⟨r, b⟩
      cases r <;> rfl
    rw [hrel] at hr hok
    rw [hreset] at hok
    refine ⟨⟨rest, by simpa using hr, hshape⟩, ?_⟩
    intro h2
    obtain ⟨cur2, g1, g2, g3⟩ := hok () h2
    exact ⟨cur2, g1, g2, by simpa using g3⟩

/-- C12 on the counting backend: the first `prepare` returns holding the
cursor of handle 0; the second releases it, creates the cursor of handle 1 and
prepares the second statement on it. -/
theorem prepare_twice_releases_first_witness :
    (SqlConnection.prepare CountingBackend "select a from t" counting_connection).1 =
      Except.ok () ∧
    (SqlConnection.prepare CountingBackend "select a from t" counting_connection).2.cursor_ =
      some ⟨0, false, none⟩ ∧
    (SqlConnection.prepare CountingBackend "select b from u"
      (SqlConnection.prepare CountingBackend "select a from t" counting_connection).2).1 =
        Except.ok () ∧
    ∃ cur2,
      (SqlConnection.prepare CountingBackend "select b from u"
        (SqlConnection.prepare CountingBackend "select a from t"
          counting_connection).2).2.cursor_ = some cur2 ∧
      (CountingBackend.new_cursor (CountingBackend.release 0
        (SqlConnection.prepare CountingBackend "select a from t"
          counting_connection).2.backend_).2).1 = Except.ok cur2.backend_ ∧
      new_calls
        (SqlConnection.prepare CountingBackend "select a from t" counting_connection).2
        (SqlConnection.prepare CountingBackend "select b from u"
          (SqlConnection.prepare CountingBackend "select a from t"
            counting_connection).2).2 =
          [BackendCall.cursor_release 0, BackendCall.conn_new_cursor,
            BackendCall.cursor_prepare cur2.backend_ "select b from u"] :=
  ⟨rfl, rfl, rfl,
    ((prepare_twice_releases_first CountingBackend "select a from t" "select b from u"
      counting_connection).2 ⟨0, false, none⟩ rfl).2 rfl⟩

/-! ## Fetching rows -/

/-- `fetch_row` leaves the bad flag alone when the backend returns. -/
theorem SqlCursor_fetch_row_ok_bad {σ : Type} (B : SqlBackend σ) (cursor : SqlCursor)
    (c : SqlConnection σ) (row : Option Row)
    (h : (B.fetch_row cursor.backend_ c.backend_).1 = Except.ok row) :
    (SqlCursor.fetch_row B cursor c).2.bad_ = c.bad_ := by
  unfold SqlCursor.fetch_row SqlConnection.invoke
  rcases hb : B.fetch_row cursor.backend_ c.backend_ with ⟨r, b⟩
  rw [hb] at h
  simp only at h
  subst h
  cases hecho : cursor.echo_ <;> cases row <;> simp

/-- The loop of `fetch_rows` over a statement that serves its pending rows in
order: it appends the first `n` pending rows, or all of them if there are
fewer, leaves the others pending and the bad flag as it was. -/
theorem copy_no_more_than_n_rows {σ : Type} (B : SqlBackend σ) (result : SqlResultSet)
    (view : σ → List Row) (hsrc : FetchesFrom B result.cursor_.backend_ view)
    (n : Nat) (rows : Rows) (c : SqlConnection σ) :
    (copy_no_more_than_n B result n rows c).1 =
      Except.ok (rows ++ (view c.backend_).take n) ∧
    view (copy_no_more_than_n B result n rows c).2.backend_ = (view c.backend_).drop n ∧
    (copy_no_more_than_n B result n rows c).2.bad_ = c.bad_ := by
  induction n generalizing rows c with
  | zero => simp [copy_no_more_than_n]
  | succ n ih =>
    obtain ⟨s1, s2⟩ := hsrc c.backend_
    obtain ⟨h1, _, _, _, _, _, h7⟩ := SqlCursor_fetch_row_spec B result.cursor_ c
    have hbad := SqlCursor_fetch_row_ok_bad B result.cursor_ c _ s1
    unfold copy_no_more_than_n
    rw [SqlResultSet_fetch_eq]
    rcases hf : SqlCursor.fetch_row B result.cursor_ c with ⟨r, c1⟩
    rw [hf] at h1 h7 hbad
    simp only at h1 h7 hbad
    rw [s1] at h1
    rw [← h7] at s2
    subst h1
    cases hv : view c.backend_ with
    | nil =>
      rw [hv] at s2
      simp only [List.head?_nil]
      simp [s2, hbad]
    | cons row rest =>
      rw [hv] at s2
      simp only [List.head?_cons]
      obtain ⟨g1, g2, g3⟩ := ih (rows ++ [row]) c1
      simp only [List.tail_cons] at s2
      rw [g1, g2, g3, s2]
      simp [hbad]

/-- C13: for every cursor and every `max_rows` of zero or less,
`SqlCursor::fetch_rows(max_rows)` returns the empty sequence, makes no backend
call and leaves the connection, its backend included, as it was, so that a
later fetch finds what it would have found before; the same holds for the
pass-through of the connection. -/
theorem fetch_rows_nonpositive {σ : Type} (B : SqlBackend σ) (cursor : SqlCursor)
    (max_rows : Int) (c : SqlConnection σ) (h : max_rows ≤ 0) :
    SqlCursor.fetch_rows B cursor max_rows c = (Except.ok [], c) ∧
    new_calls c (SqlCursor.fetch_rows B cursor max_rows c).2 = [] ∧
    SqlCursor.fetch_row B cursor (SqlCursor.fetch_rows B cursor max_rows c).2 =
      SqlCursor.fetch_row B cursor c ∧
    (c.cursor_ = some cursor →
      SqlConnection.fetch_rows B max_rows c = (Except.ok [], c)) := by
  have h0 : SqlCursor.fetch_rows B cursor max_rows c = (Except.ok [], c) := by
    unfold SqlCursor.fetch_rows
    rw [Int.toNat_of_nonpos h]
    rfl
  refine ⟨h0, ?_, ?_, ?_⟩
  · rw [h0]
    exact new_calls_of_append c c [] (by simp)
  · rw [h0]
  · intro hc
    unfold SqlConnection.fetch_rows YB_ASSERT
    rw [hc]
    exact h0

/-- C13 at a cursor with two rows pending and `max_rows` zero: nothing is
returned, nothing is fetched, and the next fetch yields the first row. -/
theorem fetch_rows_nonpositive_witness :
    SqlCursor.fetch_rows RowsBackend ⟨1, false, none⟩ 0
        (fresh_connection [[("a", ⟨ValueType.INTEGER, "1"⟩)], [("a", ⟨ValueType.INTEGER, "2"⟩)]]) =
      (Except.ok [],
        fresh_connection [[("a", ⟨ValueType.INTEGER, "1"⟩)], [("a", ⟨ValueType.INTEGER, "2"⟩)]]) ∧
    (SqlCursor.fetch_row RowsBackend ⟨1, false, none⟩
      (SqlCursor.fetch_rows RowsBackend ⟨1, false, none⟩ 0
        (fresh_connection
          [[("a", ⟨ValueType.INTEGER, "1"⟩)], [("a", ⟨ValueType.INTEGER, "2"⟩)]])).2).1 =
      Except.ok (some [("a", ⟨ValueType.INTEGER, "1"⟩)]) :=
  ⟨(fetch_rows_nonpositive RowsBackend ⟨1, false, none⟩ 0 _ (by decide)).1, rfl⟩

/-- C14: for every cursor whose backend statement serves its pending rows in
order, and every positive `max_rows`, `SqlCursor::fetch_rows(max_rows)`
returns without an error the first `min(max_rows, k)` of the `k` pending rows,
in order; the rows it did not return are still pending, so that a following
`fetch_row` yields the next one if there is one and the end of data if not;
and the bad flag is as it was. -/
theorem fetch_rows_positive {σ : Type} (B : SqlBackend σ) (cursor : SqlCursor)
    (view : σ → List Row) (max_rows : Int) (c : SqlConnection σ)
    (hsrc : FetchesFrom B cursor.backend_ view) (hpos : 0 < max_rows) :
    (SqlCursor.fetch_rows B cursor max_rows c).1 =
      Except.ok ((view c.backend_).take max_rows.toNat) ∧
    (((view c.backend_).take max_rows.toNat).length : Int) =
      min max_rows (view c.backend_).length ∧
    view (SqlCursor.fetch_rows B cursor max_rows c).2.backend_ =
      (view c.backend_).drop max_rows.toNat ∧
    (SqlCursor.fetch_row B cursor (SqlCursor.fetch_rows B cursor max_rows c).2).1 =
      Except.ok (view c.backend_)[max_rows.toNat]? ∧
    (SqlCursor.fetch_rows B cursor max_rows c).2.bad_ = c.bad_ := by
  obtain ⟨g1, g2, g3⟩ :=
    copy_no_more_than_n_rows B ⟨cursor, none⟩ view hsrc max_rows.toNat [] c
  have hout : SqlCursor.fetch_rows B cursor max_rows c =
      (Except.ok ((view c.backend_).take max_rows.toNat),
        (copy_no_more_than_n B ⟨cursor, none⟩ max_rows.toNat [] c).2) := by
    unfold SqlCursor.fetch_rows
    rcases hc : copy_no_more_than_n B ⟨cursor, none⟩ max_rows.toNat [] c with ⟨r, c1⟩
    rw [hc] at g1
    simp only [List.nil_append] at g1
    subst g1
    rfl
  rw [hout]
  refine ⟨rfl, ?_, g2, ?_, g3⟩
  · rw [List.length_take]
    have hn : (max_rows.toNat : Int) = max_rows := Int.toNat_of_nonneg (le_of_lt hpos)
    omega
  · rw [(SqlCursor_fetch_row_spec B cursor _).1, (hsrc _).1, g2, List.head?_drop]

/-- C14 at a cursor with three rows pending: `fetch_rows(2)` returns the first
two and the next fetch the third; `fetch_rows(5)` returns all three and the
next fetch the end of data. -/
theorem fetch_rows_positive_witness :
    FetchesFrom RowsBackend 1 id ∧
    (SqlCursor.fetch_rows RowsBackend ⟨1, false, none⟩ 2
      (fresh_connection [[("a", ⟨ValueType.INTEGER, "1"⟩)], [("a", ⟨ValueType.INTEGER, "2"⟩)],
        [("a", ⟨ValueType.INTEGER, "3"⟩)]])).1 =
      Except.ok [[("a", ⟨ValueType.INTEGER, "1"⟩)], [("a", ⟨ValueType.INTEGER, "2"⟩)]] ∧
    (SqlCursor.fetch_row RowsBackend ⟨1, false, none⟩
      (SqlCursor.fetch_rows RowsBackend ⟨1, false, none⟩ 2
        (fresh_connection [[("a", ⟨ValueType.INTEGER, "1"⟩)], [("a", ⟨ValueType.INTEGER, "2"⟩)],
          [("a", ⟨ValueType.INTEGER, "3"⟩)]])).2).1 =
      Except.ok (some [("a", ⟨ValueType.INTEGER, "3"⟩)]) ∧
    (SqlCursor.fetch_rows RowsBackend ⟨1, false, none⟩ 5
      (fresh_connection [[("a", ⟨ValueType.INTEGER, "1"⟩)], [("a", ⟨ValueType.INTEGER, "2"⟩)],
        [("a", ⟨ValueType.INTEGER, "3"⟩)]])).1 =
      Except.ok [[("a", ⟨ValueType.INTEGER, "1"⟩)], [("a", ⟨ValueType.INTEGER, "2"⟩)],
        [("a", ⟨ValueType.INTEGER, "3"⟩)]] := by
  have hsrc : FetchesFrom RowsBackend 1 id := by
    intro s
    cases s <;> exact ⟨rfl, rfl⟩
  exact ⟨hsrc,
    (fetch_rows_positive RowsBackend ⟨1, false, none⟩ id 2 _ hsrc (by decide)).1,
    (fetch_rows_positive RowsBackend ⟨1, false, none⟩ id 2 _ hsrc (by decide)).2.2.2.1,
    (fetch_rows_positive RowsBackend ⟨1, false, none⟩ id 5 _ hsrc (by decide)).1⟩

/-! ## Activity tracking -/

/-- `SqlConnection::exec_direct` sets `activity_` once the cursor for the call
exists, and leaves it as it was when the cursor could not be created. -/
theorem SqlConnection_exec_direct_activity {σ : Type} (B : SqlBackend σ) (sql : String)
    (c : SqlConnection σ) :
    (∀ h, (B.new_cursor c.backend_).1 = Except.ok h →
      (SqlConnection.exec_direct B sql c).2.activity_ = true) ∧
    (∀ e, (B.new_cursor c.backend_).1 = Except.error e →
      (SqlConnection.exec_direct B sql c).2.activity_ = c.activity_) := by
  unfold SqlConnection.exec_direct SqlCursor.new SqlCursor.exec_direct SqlCursor.destroy
    SqlResultSet.own SqlConnection.invoke
  rcases hn : B.new_cursor c.backend_ with ⟨r1, b1⟩
  cases r1 with
  | error e1 => simp
  | ok h =>
    simp only
    cases hecho : c.echo_ <;>
    rcases hx : B.exec_direct h sql b1 with ⟨r2, b2⟩ <;>
    cases r2 <;> simp [hx]

/-- `SqlConnection::prepare` sets `activity_` once the old cursor is released
and the new one exists, and leaves it as it was when either step threw. -/
theorem SqlConnection_prepare_activity {σ : Type} (B : SqlBackend σ) (sql : String)
    (c : SqlConnection σ) :
    (∀ u h, (SqlConnection.reset_cursor B c).1 = Except.ok u →
      (B.new_cursor (SqlConnection.reset_cursor B c).2.backend_).1 = Except.ok h →
      (SqlConnection.prepare B sql c).2.activity_ = true) ∧
    ((∃ e, (SqlConnection.reset_cursor B c).1 = Except.error e) ∨
      (∃ e, (B.new_cursor (SqlConnection.reset_cursor B c).2.backend_).1 = Except.error e) →
      (SqlConnection.prepare B sql c).2.activity_ = c.activity_) := by
  unfold SqlConnection.prepare SqlConnection.reset_cursor SqlCursor.destroy SqlCursor.new
    SqlCursor.prepare SqlConnection.invoke
  cases hcur : c.cursor_ with
  | none =>
    simp only
    rcases hn : B.new_cursor c.backend_ with ⟨r2, b2⟩
    cases r2 with
    | error e2 => simp
    | ok h =>
      simp only
      cases hecho : c.echo_ <;>
      rcases hp : B.prepare h sql b2 with ⟨r3, b3⟩ <;>
      cases r3 <;> simp [hp]
  | some old =>
    simp only
    rcases hrel : B.release old.backend_ c.backend_ with ⟨r1, b1⟩
    cases r1 with
    | error e1 => simp
    | ok u =>
      simp only
      rcases hn : B.new_cursor b1 with ⟨r2, b2⟩
      cases r2 with
      | error e2 => simp
      | ok h =>
        simp only
        cases hecho : c.echo_ <;>
        rcases hp : B.prepare h sql b2 with ⟨r3, b3⟩ <;>
        cases r3 <;> simp [hp]

/-- C15, as stated, fails: on a backend that cannot hand out a statement
handle, `exec_direct` on a fresh connection calls the backend (`new_cursor`)
and throws with `activity_` still cleared. -/
theorem activity_not_set_when_cursor_creation_fails :
    ¬ ActivityTracked (NoCursorBackend lost_link) "delete from t" [] 5 (fresh_connection []) := by
  intro h
  exact absurd h.1 (by decide)

/-- C15, amended: `exec_direct`, `prepare` and `exec` of a cursor set
`activity_`, whatever the backend then does; the functions of the connection
of those names set it once they have their cursor (the old cursor released and
the new one created, or a prepared cursor held) and leave it as it was when
they throw before that; `commit` and `rollback` clear it, also when the
backend throws; the fetches leave it as it was. -/
theorem activity_tracking {σ : Type} (B : SqlBackend σ) (cursor : SqlCursor) (sql : String)
    (params : Values) (max_rows : Int) (c : SqlConnection σ) :
    (SqlCursor.exec_direct B cursor sql c).2.activity_ = true ∧
    (SqlCursor.prepare B cursor sql c).2.activity_ = true ∧
    (SqlCursor.exec B cursor params c).2.activity_ = true ∧
    (∀ h, (B.new_cursor c.backend_).1 = Except.ok h →
      (SqlConnection.exec_direct B sql c).2.activity_ = true) ∧
    (∀ e, (B.new_cursor c.backend_).1 = Except.error e →
      (SqlConnection.exec_direct B sql c).2.activity_ = c.activity_) ∧
    (∀ u h, (SqlConnection.reset_cursor B c).1 = Except.ok u →
      (B.new_cursor (SqlConnection.reset_cursor B c).2.backend_).1 = Except.ok h →
      (SqlConnection.prepare B sql c).2.activity_ = true) ∧
    ((∃ e, (SqlConnection.reset_cursor B c).1 = Except.error e) ∨
      (∃ e, (B.new_cursor (SqlConnection.reset_cursor B c).2.backend_).1 = Except.error e) →
      (SqlConnection.prepare B sql c).2.activity_ = c.activity_) ∧
    (∀ p, c.cursor_ = some p → (SqlConnection.exec B params c).2.activity_ = true) ∧
    (c.cursor_ = none → (SqlConnection.exec B params c).2.activity_ = c.activity_) ∧
    (SqlConnection.commit B c).2.activity_ = false ∧
    (SqlConnection.rollback B c).2.activity_ = false ∧
    (SqlCursor.fetch_row B cursor c).2.activity_ = c.activity_ ∧
    (SqlCursor.fetch_rows B cursor max_rows c).2.activity_ = c.activity_ ∧
    (SqlConnection.fetch_row B c).2.activity_ = c.activity_ ∧
    (SqlConnection.fetch_rows B max_rows c).2.activity_ = c.activity_ := by
  have hrows : ∀ cur : SqlCursor,
      (SqlCursor.fetch_rows B cur max_rows c).2.activity_ = c.activity_ := by
    intro cur
    obtain ⟨_, _, _, _, _, g5, _⟩ := SqlCursor_fetch_rows_spec B cur max_rows c
    exact g5
  refine ⟨(SqlCursor_exec_direct_spec B cursor sql c).2.2.2.1,
    (SqlCursor_prepare_spec B cursor sql c).2.2.2.1,
    (SqlCursor_exec_spec B cursor params c).2.2.2.1,
    (SqlConnection_exec_direct_activity B sql c).1,
    (SqlConnection_exec_direct_activity B sql c).2,
    (SqlConnection_prepare_activity B sql c).1,
    (SqlConnection_prepare_activity B sql c).2, ?_, ?_,
    (SqlConnection_commit_spec B c).2.2.2.1,
    (SqlConnection_rollback_spec B c).2.2.2.1,
    (SqlCursor_fetch_row_spec B cursor c).2.2.2.2.1, hrows cursor, ?_, ?_⟩
  · intro p hp
    unfold SqlConnection.exec YB_ASSERT
    rw [hp]
    exact (SqlCursor_exec_spec B p params c).2.2.2.1
  · intro hp
    unfold SqlConnection.exec YB_ASSERT
    rw [hp]
  · unfold SqlConnection.fetch_row YB_ASSERT
    cases c.cursor_ with
    | none => rfl
    | some p => exact (SqlCursor_fetch_row_spec B p c).2.2.2.2.1
  · unfold SqlConnection.fetch_rows YB_ASSERT
    cases c.cursor_ with
    | none => rfl
    | some p => exact hrows p

/-- C15, amended, on a backend that loses its link after the cursor is
created: `exec_direct` and `prepare` throw and leave `activity_` set, and the
`rollback` that follows throws and leaves it cleared. -/
theorem activity_tracking_witness :
    (SqlConnection.exec_direct (FailingBackend lost_link) "delete from t"
      (fresh_connection [])).2.activity_ = true ∧
    (SqlConnection.prepare (FailingBackend lost_link) "select a from t"
      (fresh_connection [])).2.activity_ = true ∧
    (SqlConnection.rollback (FailingBackend lost_link)
      (SqlConnection.prepare (FailingBackend lost_link) "select a from t"
        (fresh_connection [])).2).2.activity_ = false :=
  ⟨(activity_tracking (FailingBackend lost_link) ⟨1, false, none⟩ "delete from t" [] 1
      (fresh_connection [])).2.2.2.1 1 rfl,
    (activity_tracking (FailingBackend lost_link) ⟨1, false, none⟩ "select a from t" [] 1
      (fresh_connection [])).2.2.2.2.2.1 () 1 rfl rfl,
    (activity_tracking (FailingBackend lost_link) ⟨1, false, none⟩ "select a from t" [] 1
      _).2.2.2.2.2.2.2.2.2.2.1⟩

/-! ## Calls on a poisoned connection -/

/-- `SqlConnection::exec_direct` always starts by asking the backend for a
cursor, and returns when that and the backend `exec_direct` return. -/
theorem SqlConnection_exec_direct_reaches_backend {σ : Type} (B : SqlBackend σ)
    (sql : String) (c : SqlConnection σ) :
    (∃ rest, new_calls c (SqlConnection.exec_direct B sql c).2 =
      BackendCall.conn_new_cursor :: rest) ∧
    (∀ h, (B.new_cursor c.backend_).1 = Except.ok h →
      (B.exec_direct h sql (B.new_cursor c.backend_).2).1 = Except.ok () →
      ∃ rs, (SqlConnection.exec_direct B sql c).1 = Except.ok rs) := by
  unfold SqlConnection.exec_direct SqlCursor.new SqlCursor.exec_direct SqlCursor.destroy
    SqlResultSet.own SqlConnection.invoke new_calls new_events
  rcases hn : B.new_cursor c.backend_ with ⟨r1, b1⟩
  cases r1 with
  | error e1 => simp
  | ok h =>
    simp only
    cases hecho : c.echo_ <;>
    rcases hx : B.exec_direct h sql b1 with ⟨r2, b2⟩ <;>
    cases r2 <;> simp [hx]

/-- `SqlConnection::prepare` always makes a backend call. -/
theorem SqlConnection_prepare_reaches_backend {σ : Type} (B : SqlBackend σ)
    (sql : String) (c : SqlConnection σ) :
    new_calls c (SqlConnection.prepare B sql c).2 ≠ [] := by
  unfold SqlConnection.prepare SqlConnection.reset_cursor SqlCursor.destroy SqlCursor.new
    SqlCursor.prepare SqlConnection.invoke new_calls new_events
  cases hcur : c.cursor_ with
  | none =>
    simp only
    rcases hn : B.new_cursor c.backend_ with ⟨r2, b2⟩
    cases r2 with
    | error e2 => simp
    | ok h =>
      simp only
      cases hecho : c.echo_ <;>
      rcases hp : B.prepare h sql b2 with ⟨r3, b3⟩ <;>
      cases r3 <;> simp [hp]
  | some old =>
    simp only
    rcases hrel : B.release old.backend_ c.backend_ with ⟨r1, b1⟩
    cases r1 with
    | error e1 => simp
    | ok u =>
      simp only
      rcases hn : B.new_cursor b1 with ⟨r2, b2⟩
      cases r2 with
      | error e2 => simp
      | ok h =>
        simp only
        cases hecho : c.echo_ <;>
        rcases hp : B.prepare h sql b2 with ⟨r3, b3⟩ <;>
        cases r3 <;> simp [hp]

/-- The result of `commit` and of `rollback` is the result of the backend. -/
theorem SqlConnection_commit_rollback_result {σ : Type} (B : SqlBackend σ)
    (c : SqlConnection σ) :
    (SqlConnection.commit B c).1 = (B.commit c.backend_).1 ∧
    (SqlConnection.rollback B c).1 = (B.rollback c.backend_).1 := by
  unfold SqlConnection.commit SqlConnection.rollback SqlConnection.invoke
  constructor
  · cases hecho : c.echo_ <;>
    rcases hb : B.commit c.backend_ with ⟨r, b⟩ <;>
    cases r <;> simp [hb]
  · cases hecho : c.echo_ <;>
    rcases hb : B.rollback c.backend_ with ⟨r, b⟩ <;>
    cases r <;> simp [hb]

/-- `SqlCursor::exec` throws exactly when the backend does, and what it did. -/
theorem SqlCursor_exec_raised {σ : Type} (B : SqlBackend σ) (cursor : SqlCursor)
    (params : Values) (c : SqlConnection σ) :
    raised (SqlCursor.exec B cursor params c).1 =
      raised (B.exec cursor.backend_ params c.backend_).1 := by
  unfold SqlCursor.exec SqlConnection.invoke
  cases hecho : cursor.echo_ <;>
  rcases hb : B.exec cursor.backend_ params c.backend_ with ⟨r, b⟩ <;>
  cases r <;> simp [hb, raised]

/-- `commit` and `rollback` do on any connection what they do on the healthy
one. -/
theorem commit_rollback_same_as_healthy {σ : Type} (B : SqlBackend σ)
    (c : SqlConnection σ) :
    SameOutcome (SqlConnection.commit B c) (SqlConnection.commit B c.healthy) ∧
    SameOutcome (SqlConnection.rollback B c) (SqlConnection.rollback B c.healthy) := by
  unfold SameOutcome SqlConnection.commit SqlConnection.rollback SqlConnection.invoke
    SqlConnection.healthy
  constructor
  · cases hecho : c.echo_ <;>
    rcases hb : B.commit c.backend_ with ⟨r, b⟩ <;>
    cases r <;> simp [hb]
  · cases hecho : c.echo_ <;>
    rcases hb : B.rollback c.backend_ with ⟨r, b⟩ <;>
    cases r <;> simp [hb]

/-- `exec` does on any connection what it does on the healthy one. -/
theorem exec_same_as_healthy {σ : Type} (B : SqlBackend σ) (params : Values)
    (c : SqlConnection σ) :
    SameOutcome (SqlConnection.exec B params c) (SqlConnection.exec B params c.healthy) := by
  unfold SameOutcome SqlConnection.exec YB_ASSERT SqlCursor.exec SqlConnection.invoke
    SqlConnection.healthy
  cases hcur : c.cursor_ with
  | none => simp [hcur]
  | some p =>
    simp only
    cases hecho : p.echo_ <;>
    rcases hb : B.exec p.backend_ params c.backend_ with ⟨r, b⟩ <;>
    cases r <;> simp [hb, hcur]

/-- `exec_direct` does on any connection what it does on the healthy one. -/
theorem exec_direct_same_as_healthy {σ : Type} (B : SqlBackend σ) (sql : String)
    (c : SqlConnection σ) :
    SameOutcome (SqlConnection.exec_direct B sql c)
      (SqlConnection.exec_direct B sql c.healthy) := by
  unfold SameOutcome SqlConnection.exec_direct SqlCursor.new SqlCursor.exec_direct
    SqlCursor.destroy SqlResultSet.own SqlConnection.invoke SqlConnection.healthy
  rcases hn : B.new_cursor c.backend_ with ⟨r1, b1⟩
  cases r1 with
  | error e1 => simp
  | ok h =>
    simp only
    cases hecho : c.echo_ <;>
    rcases hx : B.exec_direct h sql b1 with ⟨r2, b2⟩ <;>
    cases r2 <;> simp [hx]

/-- `prepare` does on any connection what it does on the healthy one. -/
theorem prepare_same_as_healthy {σ : Type} (B : SqlBackend σ) (sql : String)
    (c : SqlConnection σ) :
    SameOutcome (SqlConnection.prepare B sql c) (SqlConnection.prepare B sql c.healthy) := by
  unfold SameOutcome SqlConnection.prepare SqlConnection.reset_cursor SqlCursor.destroy
    SqlCursor.new SqlCursor.prepare SqlConnection.invoke SqlConnection.healthy
  cases hcur : c.cursor_ with
  | none =>
    simp only
    rcases hn : B.new_cursor c.backend_ with ⟨r2, b2⟩
    cases r2 with
    | error e2 => simp [hcur]
    | ok h =>
      simp only
      cases hecho : c.echo_ <;>
      rcases hp : B.prepare h sql b2 with ⟨r3, b3⟩ <;>
      cases r3 <;> simp [hp, hcur]
  | some old =>
    simp only
    rcases hrel : B.release old.backend_ c.backend_ with ⟨r1, b1⟩
    cases r1 with
    | error e1 => simp [hcur]
    | ok u =>
      simp only
      rcases hn : B.new_cursor b1 with ⟨r2, b2⟩
      cases r2 with
      | error e2 => simp [hcur]
      | ok h =>
        simp only
        cases hecho : c.echo_ <;>
        rcases hp : B.prepare h sql b2 with ⟨r3, b3⟩ <;>
        cases r3 <;> simp [hp, hcur]

/-- `exec_direct` returns when the creation of its cursor and the backend
`exec_direct` return, and these two are then all its backend calls. -/
theorem SqlConnection_exec_direct_returns {σ : Type} (B : SqlBackend σ) (sql : String)
    (c : SqlConnection σ) (h : Nat)
    (hn : (B.new_cursor c.backend_).1 = Except.ok h)
    (hx : (B.exec_direct h sql (B.new_cursor c.backend_).2).1 = Except.ok ()) :
    (∃ rs, (SqlConnection.exec_direct B sql c).1 = Except.ok rs) ∧
    new_calls c (SqlConnection.exec_direct B sql c).2 =
      [BackendCall.conn_new_cursor, BackendCall.cursor_exec_direct h sql] := by
  obtain ⟨rs, hrs⟩ := (SqlConnection_exec_direct_reaches_backend B sql c).2 h hn hx
  obtain ⟨_, g2, g3⟩ := (SqlConnection_exec_direct_shape B sql c).2 rs hrs
  rw [hn] at g2
  cases g2
  exact ⟨⟨rs, hrs⟩, g3⟩

/-- `prepare` returns when the release of the cursor held (if one is held),
the creation of the new cursor and the backend `prepare` return, and these are
then all its backend calls. -/
theorem SqlConnection_prepare_returns {σ : Type} (B : SqlBackend σ) (sql : String)
    (c : SqlConnection σ) :
    (∀ h, c.cursor_ = none →
      (B.new_cursor c.backend_).1 = Except.ok h →
      (B.prepare h sql (B.new_cursor c.backend_).2).1 = Except.ok () →
      (SqlConnection.prepare B sql c).1 = Except.ok () ∧
      new_calls c (SqlConnection.prepare B sql c).2 =
        [BackendCall.conn_new_cursor, BackendCall.cursor_prepare h sql]) ∧
    (∀ old h, c.cursor_ = some old →
      (B.release old.backend_ c.backend_).1 = Except.ok () →
      (B.new_cursor (B.release old.backend_ c.backend_).2).1 = Except.ok h →
      (B.prepare h sql (B.new_cursor (B.release old.backend_ c.backend_).2).2).1 =
        Except.ok () →
      (SqlConnection.prepare B sql c).1 = Except.ok () ∧
      new_calls c (SqlConnection.prepare B sql c).2 =
        [BackendCall.cursor_release old.backend_, BackendCall.conn_new_cursor,
          BackendCall.cursor_prepare h sql]) := by
  unfold SqlConnection.prepare SqlConnection.reset_cursor SqlCursor.destroy SqlCursor.new
    SqlCursor.prepare SqlConnection.invoke new_calls new_events
  constructor
  · intro h hcur hn hp
    rw [hcur]
    simp only
    rcases hn1 : B.new_cursor c.backend_ with ⟨r2, b2⟩
    rw [hn1] at hn hp
    simp only at hn hp
    subst hn
    simp only
    rcases hp1 : B.prepare h sql b2 with ⟨r3, b3⟩
    rw [hp1] at hp
    simp only at hp
    subst hp
    cases hecho : c.echo_ <;> simp [hp1, raised]
  · intro old h hcur hrel hn hp
    rw [hcur]
    simp only
    rcases hrel1 : B.release old.backend_ c.backend_ with ⟨r1, b1⟩
    rw [hrel1] at hrel hn hp
    simp only at hrel hn hp
    subst hrel
    simp only
    rcases hn1 : B.new_cursor b1 with ⟨r2, b2⟩
    rw [hn1] at hn hp
    simp only at hn hp
    subst hn
    simp only
    rcases hp1 : B.prepare h sql b2 with ⟨r3, b3⟩
    rw [hp1] at hp
    simp only at hp
    subst hp
    cases hecho : c.echo_ <;> simp [hp1, raised]

/-- C16, as stated, fails: after a statement with a syntax error has poisoned
the connection, `commit` still calls the backend and returns normally. -/
theorem bad_connection_is_not_refused :
    ¬ FailsFastWhenBad SyntaxCheckingBackend "delete from t" [] poisoned_connection := by
  intro h
  obtain ⟨⟨e, he⟩, _⟩ := (h rfl).2.2.2.1
  have hv : (SqlConnection.commit SyntaxCheckingBackend poisoned_connection).1 =
      Except.ok () := rfl
  rw [hv] at he
  cases he

/-- C16, amended: no member function tests `bad_`. On a connection whose
`bad_` is set, `exec_direct`, `prepare`, `exec`, `commit` and `rollback` do
exactly what they do on the same connection with `bad_` cleared: the same
result, the same backend calls, the same backend state, `cursor_` and
`activity_`. Each of them calls the backend and returns normally when the
backend calls it makes return: `commit` and `rollback` return what the backend
returns, `exec` with a prepared cursor throws exactly when the backend `exec`
throws, `exec_direct` returns when `new_cursor` and the backend `exec_direct`
return, and `prepare` returns when the release of the old cursor, `new_cursor`
and the backend `prepare` return, these being then all their backend calls;
`bad_` stays set throughout. -/
theorem bad_connection_still_reaches_backend {σ : Type} (B : SqlBackend σ) (sql : String)
    (params : Values) (c : SqlConnection σ) (hbad : c.bad_ = true) :
    (new_calls c (SqlConnection.commit B c).2 = [BackendCall.conn_commit] ∧
      (SqlConnection.commit B c).1 = (B.commit c.backend_).1 ∧
      (SqlConnection.commit B c).2.bad_ = true) ∧
    (new_calls c (SqlConnection.rollback B c).2 = [BackendCall.conn_rollback] ∧
      (SqlConnection.rollback B c).1 = (B.rollback c.backend_).1 ∧
      (SqlConnection.rollback B c).2.bad_ = true) ∧
    (∀ p, c.cursor_ = some p →
      new_calls c (SqlConnection.exec B params c).2 =
        [BackendCall.cursor_exec p.backend_ params] ∧
      raised (SqlConnection.exec B params c).1 =
        raised (B.exec p.backend_ params c.backend_).1 ∧
      (SqlConnection.exec B params c).2.bad_ = true) ∧
    ((∃ rest, new_calls c (SqlConnection.exec_direct B sql c).2 =
        BackendCall.conn_new_cursor :: rest) ∧
      (∀ h, (B.new_cursor c.backend_).1 = Except.ok h →
        (B.exec_direct h sql (B.new_cursor c.backend_).2).1 = Except.ok () →
        ∃ rs, (SqlConnection.exec_direct B sql c).1 = Except.ok rs) ∧
      (SqlConnection.exec_direct B sql c).2.bad_ = true) ∧
    (new_calls c (SqlConnection.prepare B sql c).2 ≠ [] ∧
      (SqlConnection.prepare B sql c).2.bad_ = true) ∧
    SameOutcome (SqlConnection.commit B c) (SqlConnection.commit B c.healthy) ∧
    SameOutcome (SqlConnection.rollback B c) (SqlConnection.rollback B c.healthy) ∧
    SameOutcome (SqlConnection.exec B params c) (SqlConnection.exec B params c.healthy) ∧
    SameOutcome (SqlConnection.exec_direct B sql c)
      (SqlConnection.exec_direct B sql c.healthy) ∧
    SameOutcome (SqlConnection.prepare B sql c) (SqlConnection.prepare B sql c.healthy) ∧
    (∀ h, (B.new_cursor c.backend_).1 = Except.ok h →
      (B.exec_direct h sql (B.new_cursor c.backend_).2).1 = Except.ok () →
      (∃ rs, (SqlConnection.exec_direct B sql c).1 = Except.ok rs) ∧
      new_calls c (SqlConnection.exec_direct B sql c).2 =
        [BackendCall.conn_new_cursor, BackendCall.cursor_exec_direct h sql]) ∧
    (∀ h, c.cursor_ = none →
      (B.new_cursor c.backend_).1 = Except.ok h →
      (B.prepare h sql (B.new_cursor c.backend_).2).1 = Except.ok () →
      (SqlConnection.prepare B sql c).1 = Except.ok () ∧
      new_calls c (SqlConnection.prepare B sql c).2 =
        [BackendCall.conn_new_cursor, BackendCall.cursor_prepare h sql]) ∧
    (∀ old h, c.cursor_ = some old →
      (B.release old.backend_ c.backend_).1 = Except.ok () →
      (B.new_cursor (B.release old.backend_ c.backend_).2).1 = Except.ok h →
      (B.prepare h sql (B.new_cursor (B.release old.backend_ c.backend_).2).2).1 =
        Except.ok () →
      (SqlConnection.prepare B sql c).1 = Except.ok () ∧
      new_calls c (SqlConnection.prepare B sql c).2 =
        [BackendCall.cursor_release old.backend_, BackendCall.conn_new_cursor,
          BackendCall.cursor_prepare h sql]) := by
  refine ⟨⟨?_, (SqlConnection_commit_rollback_result B c).1,
      (SqlConnection_commit_spec B c).2.2.1 hbad⟩,
    ⟨?_, (SqlConnection_commit_rollback_result B c).2,
      (SqlConnection_rollback_spec B c).2.2.1 hbad⟩, ?_,
    ⟨(SqlConnection_exec_direct_reaches_backend B sql c).1,
      (SqlConnection_exec_direct_reaches_backend B sql c).2,
      SqlConnection_exec_direct_bad B sql c hbad⟩,
    ⟨SqlConnection_prepare_reaches_backend B sql c, SqlConnection_prepare_bad B sql c hbad⟩,
    (commit_rollback_same_as_healthy B c).1, (commit_rollback_same_as_healthy B c).2,
    exec_same_as_healthy B params c, exec_direct_same_as_healthy B sql c,
    prepare_same_as_healthy B sql c,
    fun h hn hx => SqlConnection_exec_direct_returns B sql c h hn hx,
    (SqlConnection_prepare_returns B sql c).1, (SqlConnection_prepare_returns B sql c).2⟩
  · exact new_calls_of_append _ _ _ (SqlConnection_commit_spec B c).1
  · exact new_calls_of_append _ _ _ (SqlConnection_rollback_spec B c).1
  · intro p hp
    have he : SqlConnection.exec B params c = SqlCursor.exec B p params c := by
      unfold SqlConnection.exec YB_ASSERT
      rw [hp]
    rw [he]
    exact ⟨new_calls_of_append _ _ _ (SqlCursor_exec_spec B p params c).1,
      SqlCursor_exec_raised B p params c, (SqlCursor_exec_spec B p params c).2.2.1 hbad⟩

/-- C16, amended, at the connection a statement with a syntax error has
poisoned: `commit` goes to the backend and returns, a following `exec_direct`
returns, and a `prepare` returns after the calls `new_cursor` and `prepare`,
with the result it has on the healthy connection. -/
theorem bad_connection_still_reaches_backend_witness :
    poisoned_connection.bad_ = true ∧
    new_calls poisoned_connection
      (SqlConnection.commit SyntaxCheckingBackend poisoned_connection).2 =
      [BackendCall.conn_commit] ∧
    (SqlConnection.commit SyntaxCheckingBackend poisoned_connection).1 = Except.ok () ∧
    (∃ rs, (SqlConnection.exec_direct SyntaxCheckingBackend "delete from t"
      poisoned_connection).1 = Except.ok rs) ∧
    ((SqlConnection.prepare SyntaxCheckingBackend "delete from t" poisoned_connection).1 =
        Except.ok () ∧
      new_calls poisoned_connection
        (SqlConnection.prepare SyntaxCheckingBackend "delete from t" poisoned_connection).2 =
        [BackendCall.conn_new_cursor, BackendCall.cursor_prepare 1 "delete from t"]) ∧
    (SqlConnection.prepare SyntaxCheckingBackend "delete from t" poisoned_connection).1 =
      (SqlConnection.prepare SyntaxCheckingBackend "delete from t"
        poisoned_connection.healthy).1 :=
  ⟨rfl,
    (bad_connection_still_reaches_backend SyntaxCheckingBackend "delete from t" []
      poisoned_connection rfl).1.1,
    (bad_connection_still_reaches_backend SyntaxCheckingBackend "delete from t" []
      poisoned_connection rfl).1.2.1,
    (bad_connection_still_reaches_backend SyntaxCheckingBackend "delete from t" []
      poisoned_connection rfl).2.2.2.1.2.1 1 rfl rfl,
    (bad_connection_still_reaches_backend SyntaxCheckingBackend "delete from t" []
      poisoned_connection rfl).2.2.2.2.2.2.2.2.2.2.2.1 1 rfl rfl rfl,
    (bad_connection_still_reaches_backend SyntaxCheckingBackend "delete from t" []
      poisoned_connection rfl).2.2.2.2.2.2.2.2.2.1.1⟩

/-! ## The string helpers of `tiodbc.cpp` -/

/-- `str_copy` overwrites the first `n` elements of the destination with the
`n` characters of the source and writes nothing after them. -/
theorem str_copy_eq (s : List Nat) (n : Nat) (dst : List Nat)
    (hs : str_length s = some n) (hd : n ≤ dst.length) :
    str_copy dst s = some (s.take n ++ dst.drop n) := by
  induction s generalizing n dst with
  | nil => simp [str_length] at hs
  | cons x xs ih =>
    by_cases hx : x = 0
    · subst hx
      simp only [str_length, if_true, Option.some.injEq] at hs
      subst hs
      cases dst <;> simp [str_copy]
    · simp only [str_length, hx, if_false, Option.map_eq_some'] at hs
      obtain ⟨m, hm, hn⟩ := hs
      subst hn
      cases dst with
      | nil => simp at hd
      | cons d ds =>
        have hd1 : m ≤ ds.length := by simpa using hd
        simp [str_copy, hx, ih m ds hm hd1]

theorem new_array_length (fresh : Nat → Nat) (m : Nat) : (new_array fresh m).length = m := by
  simp [new_array]

theorem new_array_drop (fresh : Nat → Nat) (n : Nat) :
    (new_array fresh (n + 1)).drop n = [fresh n] := by
  unfold new_array
  rw [List.range_succ, List.map_append]
  have hl : (List.map fresh (List.range n)).length = n := by simp
  rw [List.drop_append_of_le_length (by omega), List.drop_of_length_le (by omega)]
  simp

/-- What `str_duplicate` returns for a zero-terminated string of `n`
characters: the `n` characters, followed by whatever the last element of the
new array held. -/
theorem str_duplicate_eq (fresh : Nat → Nat) (s : List Nat) (n : Nat)
    (hs : ZeroTerminated s n) :
    str_duplicate fresh s = some (s.take n ++ [fresh n]) := by
  unfold ZeroTerminated at hs
  unfold str_duplicate
  rw [hs]
  simp only
  rw [str_copy_eq s n _ hs (by rw [new_array_length]; omega), new_array_drop]

/-- C17 on the code: for the zero-terminated string `ab` and a new array whose
elements hold the value 205, `str_duplicate` returns the three elements `a`,
`b`, 205: element 2 is not the terminator, `str_length` of the result runs off
the buffer, what C17 states is false, and the copy constructor and the
assignment of a `param_impl` bound to `ab` end up bound to that buffer. -/
theorem str_duplicate_leaves_terminator_unset :
    ZeroTerminated [97, 98, 0] 2 ∧
    str_duplicate (fun _ => 205) [97, 98, 0] = some [97, 98, 205] ∧
    str_length [97, 98, 205] = none ∧
    ¬ DuplicatesString (fun _ => 205) [97, 98, 0] 2 ∧
    param_impl.copy (fun _ => 205) ⟨7, 1, CharPtr.live [97, 98, 0]⟩ =
      some ⟨7, 1, CharPtr.live [97, 98, 205]⟩ ∧
    param_impl.assign (fun _ => 205) ⟨7, 2, CharPtr.null⟩ ⟨7, 1, CharPtr.live [97, 98, 0]⟩ =
      some ⟨7, 1, CharPtr.live [97, 98, 205]⟩ := by
  refine ⟨rfl, rfl, rfl, ?_, rfl, rfl⟩
  rintro ⟨t, ht, _, _, h0, _⟩
  have hv : str_duplicate (fun _ => 205) [97, 98, 0] = some [97, 98, 205] := rfl
  rw [hv] at ht
  cases ht
  revert h0
  decide

end Yb
